import Mathlib

/-! Navigation statechart of the iRobot Create controller.

Shallow embedding of the two statecharts of the repository:

* `Reactive`  : `navigation and obstacle avoidance/irobotNavStatechart.c`
  (states DRIVE / AVOID / REORIENT, obstacle avoidance);
* `Scripted`  : `navigation and obstacle avoidance/C Statechart/irobotNavigationStatechart.c`
  (states DRIVE..DRIVE4, TURN, TURN2, TURN_LEFT, TURN_LEFT2, fixed legs).

The C function keeps its state in `static` locals; here they are the fields of
`NavigationContext`, passed in and returned by every call.  `int32_t` and
`int16_t` values are integers, arithmetic on them wraps modulo `2^32` / `2^16`.
-/

namespace IRobot

/-- Value of an integer read as a two's-complement `int32_t`. -/
def wrap32 (x : Int) : Int := (x + 2147483648) % 4294967296 - 2147483648

/-- Value of an integer read as a two's-complement `int16_t`. -/
def wrap16 (x : Int) : Int := (x + 32768) % 65536 - 32768

/-- Subtraction `a - b` of two `int32_t`. -/
def sub32 (a b : Int) : Int := wrap32 (a - b)

/-- Unary minus on an `int32_t`. -/
def neg32 (x : Int) : Int := wrap32 (-x)

/-- The `abs` of `stdlib.h` on a 32-bit `int`: `x < 0 ? -x : x`. -/
def abs32 (x : Int) : Int := if x < 0 then neg32 x else x

/-- Modelled from the spec: `irobotSensorTypes.h` is not among the sources; the
bump and wheel-drop flags of the sensor snapshot, as the statecharts read them. -/
structure irobotBumps_WheelDrops_t where
  wheeldropLeft : Bool
  wheeldropRight : Bool
  bumpLeft : Bool
  bumpRight : Bool
deriving DecidableEq, Repr

/-- Modelled from the spec: `irobotSensorTypes.h` is not among the sources; the
button flags of the sensor snapshot (`play` is the pause button). -/
structure irobotButtons_t where
  advance : Bool
  play : Bool
deriving DecidableEq, Repr

/-- Modelled from the spec: `irobotSensorTypes.h` is not among the sources; the
fields of the decoded sensor snapshot that the statecharts read.  The type of
`wallSignal` is not visible, so it is an integer and the comparison the code
makes on it is kept. -/
structure irobotSensorGroup6_t where
  bumps_wheelDrops : irobotBumps_WheelDrops_t
  wall : Bool
  cliffLeft : Bool
  cliffFrontLeft : Bool
  cliffFrontRight : Bool
  cliffRight : Bool
  buttons : irobotButtons_t
  wallSignal : Int
deriving DecidableEq, Repr

/-- Accelerometer values (`irobotNavigationStatechart.h`), in g. -/
structure accelerometer_t where
  x : Float
  y : Float
  z : Float

/-- The two wheel speeds written through `pLeftWheelSpeed` and
`pRightWheelSpeed`, in mm/s. -/
structure WheelSpeeds where
  leftWheelSpeed : Int
  rightWheelSpeed : Int
deriving DecidableEq, Repr

/-- One cycle of inputs of `irobotNavigationStatechart`. -/
structure Inputs where
  netDistance : Int
  netAngle : Int
  sensors : irobotSensorGroup6_t
  accelAxes : accelerometer_t
  isSimulator : Bool

/-- Sensor snapshot with every flag cleared and every value zero. -/
def zeroSensors : irobotSensorGroup6_t :=
  { bumps_wheelDrops :=
      { wheeldropLeft := false, wheeldropRight := false, bumpLeft := false, bumpRight := false }
    wall := false
    cliffLeft := false
    cliffFrontLeft := false
    cliffFrontRight := false
    cliffRight := false
    buttons := { advance := false, play := false }
    wallSignal := 0 }

/-- Sensor snapshot in which only the pause button takes the given value. -/
def buttonSensors (play : Bool) : irobotSensorGroup6_t :=
  { zeroSensors with buttons := { advance := false, play := play } }

/-- Accelerometer sample with all three axes at zero. -/
def zeroAccel : accelerometer_t := { x := 0, y := 0, z := 0 }

/-- Accelerometer sample of a robot on a slope. -/
def tiltedAccel : accelerometer_t := { x := 0.5, y := -0.25, z := 0.75 }

/-- Inputs of one cycle with zero odometry, the given sensor snapshot and the
simulator flag set. -/
def sensorInputs (sensors : irobotSensorGroup6_t) : Inputs :=
  { netDistance := 0, netAngle := 0, sensors := sensors, accelAxes := zeroAccel,
    isSimulator := true }

/-- Inputs of one cycle with the given odometry and sensor snapshot, on the
robot (`isSimulator = false`). -/
def odometryInputs (netDistance netAngle : Int) (sensors : irobotSensorGroup6_t) : Inputs :=
  { netDistance := netDistance, netAngle := netAngle, sensors := sensors,
    accelAxes := zeroAccel, isSimulator := false }

/-- Sensor snapshot in which only the two bump flags are asserted. -/
def bothBumpsSensors : irobotSensorGroup6_t :=
  { zeroSensors with bumps_wheelDrops :=
      { wheeldropLeft := false, wheeldropRight := false, bumpLeft := true, bumpRight := true } }

/-- Sensor snapshot in which only the right cliff flag is asserted. -/
def cliffRightSensors : irobotSensorGroup6_t :=
  { zeroSensors with cliffRight := true }

/-- Sensor snapshot in which only the left bump flag is asserted. -/
def bumpLeftSensors : irobotSensorGroup6_t :=
  { zeroSensors with bumps_wheelDrops :=
      { wheeldropLeft := false, wheeldropRight := false, bumpLeft := true, bumpRight := false } }

/-- Sensor snapshot in which only the right bump flag is asserted. -/
def bumpRightSensors : irobotSensorGroup6_t :=
  { zeroSensors with bumps_wheelDrops :=
      { wheeldropLeft := false, wheeldropRight := false, bumpLeft := false, bumpRight := true } }

/-- Sensor snapshot in which only the wall flag is asserted, with signal
strength 100. -/
def wallSensors : irobotSensorGroup6_t :=
  { zeroSensors with wall := true, wallSignal := 100 }

/-- All-zero inputs with the pause button pressed. -/
def pressInputs : Inputs := sensorInputs (buttonSensors true)

/-- All-zero inputs with the pause button released. -/
def releaseInputs : Inputs := sensorInputs (buttonSensors false)

/-- Inputs in which every bump, wheel-drop, cliff and wall flag is asserted and
the odometry is far from zero; only the pause button is left to choose. -/
def allFlagsInputs (play : Bool) : Inputs :=
  { netDistance := 5000
    netAngle := 90
    sensors :=
      { bumps_wheelDrops :=
          { wheeldropLeft := true, wheeldropRight := true, bumpLeft := true, bumpRight := true }
        wall := true
        cliffLeft := true
        cliffFrontLeft := true
        cliffFrontRight := true
        cliffRight := true
        buttons := { advance := false, play := play }
        wallSignal := 100 }
    accelAxes := zeroAccel
    isSimulator := false }

end IRobot

/-! ## Reactive avoidance statechart (`irobotNavStatechart.c`) -/

namespace Reactive

open IRobot

/-- Program states. -/
inductive robotState_t where
  | INITIAL
  | PAUSE_WAIT_BUTTON_RELEASE
  | UNPAUSE_WAIT_BUTTON_PRESS
  | UNPAUSE_WAIT_BUTTON_RELEASE
  | DRIVE
  | AVOID
  | REORIENT
deriving DecidableEq, Repr

/-- Direction of an encountered obstacle. -/
inductive obstacleDirection_t where
  | LEFT
  | RIGHT
deriving DecidableEq, Repr

/-- Normal drive speed, in mm/s. -/
def driveSpeed : Int := 200

/-- Reorient speed, in mm/s. -/
def reorientSpeed : Int := 75

/-- Distance to travel in the avoidance algorithm before reorienting. -/
def avoidDistance : Int := 250

/-- Tolerance for reorienting the robot, in deg. -/
def reorientTolerance : Int := 2

/-- The `static` locals of `irobotNavigationStatechart`. -/
structure NavigationContext where
  state : robotState_t
  unpausedState : robotState_t
  obstacleDirection : obstacleDirection_t
  distanceAtManeuverStart : Int
  angleAtManeuverStart : Int
deriving DecidableEq, Repr

/-- Initial values of the `static` locals. -/
def initialContext : NavigationContext :=
  { state := .INITIAL
    unpausedState := .DRIVE
    obstacleDirection := .LEFT
    distanceAtManeuverStart := 0
    angleAtManeuverStart := 0 }

/-- The four states of the pause region. -/
def isPauseState (s : robotState_t) : Prop :=
  s = .INITIAL ∨ s = .PAUSE_WAIT_BUTTON_RELEASE ∨ s = .UNPAUSE_WAIT_BUTTON_PRESS
    ∨ s = .UNPAUSE_WAIT_BUTTON_RELEASE

instance (s : robotState_t) : Decidable (isPauseState s) := by
  unfold isPauseState; infer_instance

/-- The states of the run region: DRIVE, AVOID, REORIENT. -/
def isRunState (s : robotState_t) : Prop :=
  s = .DRIVE ∨ s = .AVOID ∨ s = .REORIENT

instance (s : robotState_t) : Decidable (isRunState s) := by
  unfold isRunState; infer_instance

/-- Guard of the obstacle region: any bump, wheel-drop or cliff flag. -/
def obstacleEncountered (sensors : irobotSensorGroup6_t) : Prop :=
  sensors.bumps_wheelDrops.bumpLeft = true
    ∨ sensors.bumps_wheelDrops.bumpRight = true
    ∨ sensors.bumps_wheelDrops.wheeldropLeft = true
    ∨ sensors.bumps_wheelDrops.wheeldropRight = true
    ∨ sensors.cliffLeft = true
    ∨ sensors.cliffFrontLeft = true
    ∨ sensors.cliffFrontRight = true
    ∨ sensors.cliffRight = true

instance (sensors : irobotSensorGroup6_t) : Decidable (obstacleEncountered sensors) := by
  unfold obstacleEncountered; infer_instance

/-- Guard of "set avoid direction": a flag of the left side. -/
def obstacleOnLeft (sensors : irobotSensorGroup6_t) : Prop :=
  sensors.bumps_wheelDrops.bumpLeft = true
    ∨ sensors.bumps_wheelDrops.wheeldropLeft = true
    ∨ sensors.cliffLeft = true
    ∨ sensors.cliffFrontLeft = true

instance (sensors : irobotSensorGroup6_t) : Decidable (obstacleOnLeft sensors) := by
  unfold obstacleOnLeft; infer_instance

/-- The `switch(state)` of the pause region (lines 73-105). -/
def pauseRegion (sensors : irobotSensorGroup6_t) (isSimulator : Bool)
    (c : NavigationContext) : NavigationContext :=
  match c.state with
  | .INITIAL =>
    let c1 := if isSimulator = true then c else c
    { c1 with state := .UNPAUSE_WAIT_BUTTON_PRESS }
  | .PAUSE_WAIT_BUTTON_RELEASE =>
    if sensors.buttons.play = false then { c with state := .UNPAUSE_WAIT_BUTTON_PRESS } else c
  | .UNPAUSE_WAIT_BUTTON_RELEASE =>
    if sensors.buttons.play = false then { c with state := c.unpausedState } else c
  | .UNPAUSE_WAIT_BUTTON_PRESS =>
    if sensors.buttons.play = true then { c with state := .UNPAUSE_WAIT_BUTTON_RELEASE } else c
  | _ =>
    { c with unpausedState := c.state, state := .PAUSE_WAIT_BUTTON_RELEASE }

/-- The body of the obstacle branch (lines 119-137). -/
def obstacleRegion (netDistance netAngle : Int) (sensors : irobotSensorGroup6_t)
    (c : NavigationContext) : NavigationContext :=
  let c1 := { c with distanceAtManeuverStart := netDistance }
  let c2 :=
    if c1.state ≠ .AVOID then { c1 with angleAtManeuverStart := netAngle, state := .AVOID }
    else c1
  if obstacleOnLeft sensors then { c2 with obstacleDirection := .LEFT }
  else { c2 with obstacleDirection := .RIGHT }

/-- State transitions: the `if` / `else if` chain of lines 67-147. -/
def stateTransition (netDistance netAngle : Int) (sensors : irobotSensorGroup6_t)
    (isSimulator : Bool) (c : NavigationContext) : NavigationContext :=
  if c.state = .INITIAL
      ∨ c.state = .PAUSE_WAIT_BUTTON_RELEASE
      ∨ c.state = .UNPAUSE_WAIT_BUTTON_PRESS
      ∨ c.state = .UNPAUSE_WAIT_BUTTON_RELEASE
      ∨ sensors.buttons.play = true then
    pauseRegion sensors isSimulator c
  else if obstacleEncountered sensors then
    obstacleRegion netDistance netAngle sensors c
  else if c.state = .AVOID
      ∧ abs32 (sub32 netDistance c.distanceAtManeuverStart) ≥ avoidDistance then
    { c with state := .REORIENT }
  else if c.state = .REORIENT
      ∧ abs32 (sub32 netAngle c.angleAtManeuverStart) ≤ reorientTolerance then
    { c with state := .DRIVE }
  else c

/-- State actions: the `switch(state)` of lines 152-194, with the conversion of
each value to `int16_t`.  The `default` case has no state left to cover. -/
def stateActions (netAngle : Int) (c : NavigationContext) : WheelSpeeds :=
  match c.state with
  | .INITIAL | .PAUSE_WAIT_BUTTON_RELEASE | .UNPAUSE_WAIT_BUTTON_PRESS
  | .UNPAUSE_WAIT_BUTTON_RELEASE =>
    { leftWheelSpeed := 0, rightWheelSpeed := 0 }
  | .AVOID =>
    if c.obstacleDirection = .LEFT then
      { leftWheelSpeed := wrap16 (neg32 driveSpeed)
        rightWheelSpeed := wrap16 (neg32 (driveSpeed >>> 4)) }
    else
      { leftWheelSpeed := wrap16 (neg32 (driveSpeed >>> 4))
        rightWheelSpeed := wrap16 (neg32 driveSpeed) }
  | .REORIENT =>
    if sub32 c.angleAtManeuverStart netAngle > 0 then
      { leftWheelSpeed := wrap16 (neg32 reorientSpeed)
        rightWheelSpeed := wrap16 reorientSpeed }
    else
      { leftWheelSpeed := wrap16 reorientSpeed
        rightWheelSpeed := wrap16 (neg32 reorientSpeed) }
  | .DRIVE =>
    { leftWheelSpeed := wrap16 driveSpeed, rightWheelSpeed := wrap16 driveSpeed }

/-- One call of `irobotNavigationStatechart`: the new values of the `static`
locals and the wheel speeds written to the two output pointers. -/
def irobotNavigationStatechart (netDistance netAngle : Int)
    (sensors : irobotSensorGroup6_t) (_accelAxes : accelerometer_t) (isSimulator : Bool)
    (c : NavigationContext) : NavigationContext × WheelSpeeds :=
  let c1 := stateTransition netDistance netAngle sensors isSimulator c
  (c1, stateActions netAngle c1)

/-- One control cycle on bundled inputs. -/
def step (c : NavigationContext) (i : Inputs) : NavigationContext × WheelSpeeds :=
  irobotNavigationStatechart i.netDistance i.netAngle i.sensors i.accelAxes i.isSimulator c

/-- The context after feeding a sequence of inputs, one call per cycle. -/
def run (c : NavigationContext) (is : List Inputs) : NavigationContext :=
  is.foldl (fun acc i => (step acc i).1) c

/-- The result of every call, in order, when a sequence of inputs is fed one
call per cycle: the context after the call and the wheel speeds it wrote. -/
def trace (c : NavigationContext) : List Inputs → List (NavigationContext × WheelSpeeds)
  | [] => []
  | i :: is => step c i :: trace (step c i).1 is

end Reactive

/-! ## Scripted-leg statechart (`C Statechart/irobotNavigationStatechart.c`) -/

namespace Scripted

open IRobot

/-- Program states. -/
inductive robotState_t where
  | INITIAL
  | PAUSE_WAIT_BUTTON_RELEASE
  | UNPAUSE_WAIT_BUTTON_PRESS
  | UNPAUSE_WAIT_BUTTON_RELEASE
  | DRIVE
  | DRIVE2
  | DRIVE3
  | DRIVE4
  | TURN
  | TURN2
  | TURN_LEFT
  | TURN_LEFT2
deriving DecidableEq, Repr

/-- The `static` locals of `irobotNavigationStatechart`. -/
structure NavigationContext where
  state : robotState_t
  unpausedState : robotState_t
  distanceAtManeuverStart : Int
  angleAtManeuverStart : Int
deriving DecidableEq, Repr

/-- Initial values of the `static` locals. -/
def initialContext : NavigationContext :=
  { state := .INITIAL
    unpausedState := .DRIVE
    distanceAtManeuverStart := 0
    angleAtManeuverStart := 0 }

/-- The four states of the pause region. -/
def isPauseState (s : robotState_t) : Prop :=
  s = .INITIAL ∨ s = .PAUSE_WAIT_BUTTON_RELEASE ∨ s = .UNPAUSE_WAIT_BUTTON_PRESS
    ∨ s = .UNPAUSE_WAIT_BUTTON_RELEASE

instance (s : robotState_t) : Decidable (isPauseState s) := by
  unfold isPauseState; infer_instance

/-- The states of the run region: the four drive legs and the four turn legs. -/
def isRunState (s : robotState_t) : Prop :=
  s = .DRIVE ∨ s = .DRIVE2 ∨ s = .DRIVE3 ∨ s = .DRIVE4
    ∨ s = .TURN ∨ s = .TURN2 ∨ s = .TURN_LEFT ∨ s = .TURN_LEFT2

instance (s : robotState_t) : Decidable (isRunState s) := by
  unfold isRunState; infer_instance

/-- Guard of the first run-region branch (line 118):
`sensors.wallSignal >= 0 && sensors.wall == 1 || sensors.bumps_wheelDrops.bumpLeft != 0`. -/
def wallOrBumpLeft (sensors : irobotSensorGroup6_t) : Prop :=
  (sensors.wallSignal ≥ 0 ∧ sensors.wall = true) ∨ sensors.bumps_wheelDrops.bumpLeft = true

instance (sensors : irobotSensorGroup6_t) : Decidable (wallOrBumpLeft sensors) := by
  unfold wallOrBumpLeft; infer_instance

/-- The `switch(state)` of the pause region (lines 76-108). -/
def pauseRegion (sensors : irobotSensorGroup6_t) (isSimulator : Bool)
    (c : NavigationContext) : NavigationContext :=
  match c.state with
  | .INITIAL =>
    let c1 := if isSimulator = true then c else c
    { c1 with state := .UNPAUSE_WAIT_BUTTON_PRESS }
  | .PAUSE_WAIT_BUTTON_RELEASE =>
    if sensors.buttons.play = false then { c with state := .UNPAUSE_WAIT_BUTTON_PRESS } else c
  | .UNPAUSE_WAIT_BUTTON_RELEASE =>
    if sensors.buttons.play = false then { c with state := c.unpausedState } else c
  | .UNPAUSE_WAIT_BUTTON_PRESS =>
    if sensors.buttons.play = true then { c with state := .UNPAUSE_WAIT_BUTTON_RELEASE } else c
  | _ =>
    { c with unpausedState := c.state, state := .PAUSE_WAIT_BUTTON_RELEASE }

/-- State transitions: the `if` / `else if` chain of lines 70-162. -/
def stateTransition (netDistance netAngle : Int) (sensors : irobotSensorGroup6_t)
    (isSimulator : Bool) (c : NavigationContext) : NavigationContext :=
  if c.state = .INITIAL
      ∨ c.state = .PAUSE_WAIT_BUTTON_RELEASE
      ∨ c.state = .UNPAUSE_WAIT_BUTTON_PRESS
      ∨ c.state = .UNPAUSE_WAIT_BUTTON_RELEASE
      ∨ sensors.buttons.play = true then
    pauseRegion sensors isSimulator c
  else if wallOrBumpLeft sensors then
    { c with angleAtManeuverStart := netAngle, distanceAtManeuverStart := netDistance,
             state := .TURN }
  else if c.state = .TURN ∧ abs32 (sub32 netAngle c.angleAtManeuverStart) ≥ 79 then
    { c with angleAtManeuverStart := netAngle, distanceAtManeuverStart := netDistance,
             state := .DRIVE }
  else if c.state = .DRIVE ∧ abs32 (sub32 netDistance c.distanceAtManeuverStart) ≥ 800 then
    { c with angleAtManeuverStart := netAngle, distanceAtManeuverStart := netDistance,
             state := .TURN_LEFT }
  else if c.state = .TURN_LEFT ∧ abs32 (sub32 netAngle c.angleAtManeuverStart) ≥ 88 then
    { c with angleAtManeuverStart := netAngle, distanceAtManeuverStart := netDistance,
             state := .DRIVE2 }
  else if c.state = .DRIVE2 ∧ abs32 (sub32 netDistance c.distanceAtManeuverStart) ≥ 1500 then
    { c with angleAtManeuverStart := netAngle, distanceAtManeuverStart := netDistance,
             state := .TURN_LEFT2 }
  else if c.state = .TURN_LEFT2 ∧ abs32 (sub32 netAngle c.angleAtManeuverStart) ≥ 89 then
    { c with angleAtManeuverStart := netAngle, distanceAtManeuverStart := netDistance,
             state := .DRIVE3 }
  else if c.state = .DRIVE3 ∧ abs32 (sub32 netDistance c.distanceAtManeuverStart) ≥ 1000 then
    { c with distanceAtManeuverStart := netDistance, state := .TURN2 }
  else if c.state = .TURN2 ∧ abs32 (sub32 netAngle c.angleAtManeuverStart) ≥ 50 then
    { c with distanceAtManeuverStart := netDistance, state := .DRIVE4 }
  else if c.state = .DRIVE4 ∧ abs32 (sub32 netDistance c.distanceAtManeuverStart) ≥ 9000 then
    { c with distanceAtManeuverStart := netDistance }
  else c

/-- State actions: the `switch(state)` of lines 169-222, with the conversion of
each value to `int16_t`.  The `default` case has no state left to cover. -/
def stateActions (c : NavigationContext) : WheelSpeeds :=
  match c.state with
  | .INITIAL | .PAUSE_WAIT_BUTTON_RELEASE | .UNPAUSE_WAIT_BUTTON_PRESS
  | .UNPAUSE_WAIT_BUTTON_RELEASE =>
    { leftWheelSpeed := 0, rightWheelSpeed := 0 }
  | .DRIVE | .DRIVE2 | .DRIVE3 | .DRIVE4 =>
    { leftWheelSpeed := wrap16 200, rightWheelSpeed := wrap16 200 }
  | .TURN | .TURN2 =>
    { leftWheelSpeed := wrap16 100, rightWheelSpeed := wrap16 (neg32 (wrap16 100)) }
  | .TURN_LEFT | .TURN_LEFT2 =>
    { leftWheelSpeed := wrap16 (-100), rightWheelSpeed := wrap16 (neg32 (wrap16 (-100))) }

/-- One call of `irobotNavigationStatechart`: the new values of the `static`
locals and the wheel speeds written to the two output pointers. -/
def irobotNavigationStatechart (netDistance netAngle : Int)
    (sensors : irobotSensorGroup6_t) (_accel : accelerometer_t) (isSimulator : Bool)
    (c : NavigationContext) : NavigationContext × WheelSpeeds :=
  let c1 := stateTransition netDistance netAngle sensors isSimulator c
  (c1, stateActions c1)

/-- One control cycle on bundled inputs. -/
def step (c : NavigationContext) (i : Inputs) : NavigationContext × WheelSpeeds :=
  irobotNavigationStatechart i.netDistance i.netAngle i.sensors i.accelAxes i.isSimulator c

/-- The context after feeding a sequence of inputs, one call per cycle. -/
def run (c : NavigationContext) (is : List Inputs) : NavigationContext :=
  is.foldl (fun acc i => (step acc i).1) c

/-- The result of every call, in order, when a sequence of inputs is fed one
call per cycle: the context after the call and the wheel speeds it wrote. -/
def trace (c : NavigationContext) : List Inputs → List (NavigationContext × WheelSpeeds)
  | [] => []
  | i :: is => step c i :: trace (step c i).1 is

end Scripted

/-! ## Arithmetic helpers -/

namespace IRobot

/-- An integer in the `int32_t` range is its own two's-complement reading. -/
theorem wrap32_of_inRange (x : Int) (hlo : -2147483648 ≤ x) (hhi : x < 2147483648) :
    wrap32 x = x := by
  unfold wrap32
  omega

/-- When neither the subtraction nor `abs` overflows, `abs (a - b)` on
`int32_t` is the mathematical absolute difference. -/
theorem abs32_sub32_eq (a b : Int) (hlo : -2147483648 < a - b) (hhi : a - b < 2147483648) :
    abs32 (sub32 a b) = |a - b| := by
  have hsub : sub32 a b = a - b := wrap32_of_inRange _ (le_of_lt hlo) hhi
  rw [hsub]
  unfold abs32 neg32
  by_cases hneg : a - b < 0
  · rw [if_pos hneg, abs_of_neg hneg]
    exact wrap32_of_inRange _ (by omega) (by omega)
  · rw [if_neg hneg, abs_of_nonneg (not_lt.mp hneg)]

end IRobot

/-! ## The pause region -/

open IRobot

/-- C1: in both statecharts, whenever the state after a call is one of the four
pause-region states the wheel speeds written are (0, 0); in particular this is
so whenever the pause button is pressed or the state before the call is
INITIAL. -/
theorem pause_state_outputs_zero :
    (∀ (c : Reactive.NavigationContext) (i : Inputs),
        (Reactive.isPauseState (Reactive.step c i).1.state →
          (Reactive.step c i).2 = { leftWheelSpeed := 0, rightWheelSpeed := 0 })
        ∧ (i.sensors.buttons.play = true →
          (Reactive.step c i).2 = { leftWheelSpeed := 0, rightWheelSpeed := 0 })
        ∧ (c.state = .INITIAL →
          (Reactive.step c i).2 = { leftWheelSpeed := 0, rightWheelSpeed := 0 }))
    ∧ (∀ (c : Scripted.NavigationContext) (i : Inputs),
        (Scripted.isPauseState (Scripted.step c i).1.state →
          (Scripted.step c i).2 = { leftWheelSpeed := 0, rightWheelSpeed := 0 })
        ∧ (i.sensors.buttons.play = true →
          (Scripted.step c i).2 = { leftWheelSpeed := 0, rightWheelSpeed := 0 })
        ∧ (c.state = .INITIAL →
          (Scripted.step c i).2 = { leftWheelSpeed := 0, rightWheelSpeed := 0 })) := by
  refine ⟨fun c i => ⟨?_, ?_, ?_⟩, fun c i => ⟨?_, ?_, ?_⟩⟩
  · intro h
    simp only [Reactive.step, Reactive.irobotNavigationStatechart] at h ⊢
    rcases h with h | h | h | h <;> simp [Reactive.stateActions, h]
  · intro hp
    obtain ⟨s, u, d, x, a⟩ := c
    cases s <;>
      simp [Reactive.step, Reactive.irobotNavigationStatechart, Reactive.stateTransition,
        Reactive.pauseRegion, Reactive.stateActions, hp]
  · intro hs
    simp [Reactive.step, Reactive.irobotNavigationStatechart, Reactive.stateTransition,
      Reactive.pauseRegion, Reactive.stateActions, hs]
  · intro h
    simp only [Scripted.step, Scripted.irobotNavigationStatechart] at h ⊢
    rcases h with h | h | h | h <;> simp [Scripted.stateActions, h]
  · intro hp
    obtain ⟨s, u, x, a⟩ := c
    cases s <;>
      simp [Scripted.step, Scripted.irobotNavigationStatechart, Scripted.stateTransition,
        Scripted.pauseRegion, Scripted.stateActions, hp]
  · intro hs
    simp [Scripted.step, Scripted.irobotNavigationStatechart, Scripted.stateTransition,
      Scripted.pauseRegion, Scripted.stateActions, hs]

/-- Witness of C1: the first call from the initial context ends in a pause
state, and a call with the button pressed from DRIVE / TURN; all output (0, 0). -/
theorem pause_state_outputs_zero_witness :
    (Reactive.isPauseState (Reactive.step Reactive.initialContext releaseInputs).1.state
      ∧ (Reactive.step Reactive.initialContext releaseInputs).2
          = { leftWheelSpeed := 0, rightWheelSpeed := 0 })
    ∧ (pressInputs.sensors.buttons.play = true
      ∧ (Reactive.step { Reactive.initialContext with state := .DRIVE } pressInputs).2
          = { leftWheelSpeed := 0, rightWheelSpeed := 0 })
    ∧ (Scripted.isPauseState (Scripted.step Scripted.initialContext releaseInputs).1.state
      ∧ (Scripted.step Scripted.initialContext releaseInputs).2
          = { leftWheelSpeed := 0, rightWheelSpeed := 0 })
    ∧ (pressInputs.sensors.buttons.play = true
      ∧ (Scripted.step { Scripted.initialContext with state := .TURN } pressInputs).2
          = { leftWheelSpeed := 0, rightWheelSpeed := 0 }) :=
  ⟨⟨by decide, (pause_state_outputs_zero.1 _ _).1 (by decide)⟩,
   ⟨by decide, (pause_state_outputs_zero.1 _ _).2.1 (by decide)⟩,
   ⟨by decide, (pause_state_outputs_zero.2 _ _).1 (by decide)⟩,
   ⟨by decide, (pause_state_outputs_zero.2 _ _).2.1 (by decide)⟩⟩

/-- C2: in both statecharts, from a pause-protocol state the next context is
the one of the pause table and nothing but `state` changes: INITIAL goes to
UNPAUSE_WAIT_BUTTON_PRESS; PAUSE_WAIT_BUTTON_RELEASE goes to
UNPAUSE_WAIT_BUTTON_PRESS when the button is released and stays otherwise;
UNPAUSE_WAIT_BUTTON_PRESS goes to UNPAUSE_WAIT_BUTTON_RELEASE when the button
is pressed and stays otherwise; UNPAUSE_WAIT_BUTTON_RELEASE goes to
`unpausedState` when the button is released and stays otherwise. -/
theorem pause_table :
    (∀ (c : Reactive.NavigationContext) (i : Inputs),
        (c.state = .INITIAL →
          (Reactive.step c i).1 = { c with state := .UNPAUSE_WAIT_BUTTON_PRESS })
        ∧ (c.state = .PAUSE_WAIT_BUTTON_RELEASE →
          (Reactive.step c i).1 = { c with state :=
            if i.sensors.buttons.play = false then .UNPAUSE_WAIT_BUTTON_PRESS
            else .PAUSE_WAIT_BUTTON_RELEASE })
        ∧ (c.state = .UNPAUSE_WAIT_BUTTON_PRESS →
          (Reactive.step c i).1 = { c with state :=
            if i.sensors.buttons.play = true then .UNPAUSE_WAIT_BUTTON_RELEASE
            else .UNPAUSE_WAIT_BUTTON_PRESS })
        ∧ (c.state = .UNPAUSE_WAIT_BUTTON_RELEASE →
          (Reactive.step c i).1 = { c with state :=
            if i.sensors.buttons.play = false then c.unpausedState
            else .UNPAUSE_WAIT_BUTTON_RELEASE }))
    ∧ (∀ (c : Scripted.NavigationContext) (i : Inputs),
        (c.state = .INITIAL →
          (Scripted.step c i).1 = { c with state := .UNPAUSE_WAIT_BUTTON_PRESS })
        ∧ (c.state = .PAUSE_WAIT_BUTTON_RELEASE →
          (Scripted.step c i).1 = { c with state :=
            if i.sensors.buttons.play = false then .UNPAUSE_WAIT_BUTTON_PRESS
            else .PAUSE_WAIT_BUTTON_RELEASE })
        ∧ (c.state = .UNPAUSE_WAIT_BUTTON_PRESS →
          (Scripted.step c i).1 = { c with state :=
            if i.sensors.buttons.play = true then .UNPAUSE_WAIT_BUTTON_RELEASE
            else .UNPAUSE_WAIT_BUTTON_PRESS })
        ∧ (c.state = .UNPAUSE_WAIT_BUTTON_RELEASE →
          (Scripted.step c i).1 = { c with state :=
            if i.sensors.buttons.play = false then c.unpausedState
            else .UNPAUSE_WAIT_BUTTON_RELEASE })) := by
  refine ⟨fun c i => ?_, fun c i => ?_⟩
  · obtain ⟨s, u, d, x, a⟩ := c
    refine ⟨?_, ?_, ?_, ?_⟩ <;> intro hs <;> simp only at hs <;> subst hs <;>
      by_cases hp : i.sensors.buttons.play = true <;>
      simp [Reactive.step, Reactive.irobotNavigationStatechart, Reactive.stateTransition,
        Reactive.pauseRegion, hp]
  · obtain ⟨s, u, x, a⟩ := c
    refine ⟨?_, ?_, ?_, ?_⟩ <;> intro hs <;> simp only at hs <;> subst hs <;>
      by_cases hp : i.sensors.buttons.play = true <;>
      simp [Scripted.step, Scripted.irobotNavigationStatechart, Scripted.stateTransition,
        Scripted.pauseRegion, hp]

/-- Witness of C2: every row of the pause table at inputs with all obstacle and
wall flags asserted and non-zero odometry. -/
theorem pause_table_witness :
    ((Reactive.step Reactive.initialContext (allFlagsInputs true)).1
        = { Reactive.initialContext with state := .UNPAUSE_WAIT_BUTTON_PRESS }
      ∧ (Reactive.step { Reactive.initialContext with state := .PAUSE_WAIT_BUTTON_RELEASE }
            (allFlagsInputs false)).1
        = { Reactive.initialContext with state := .UNPAUSE_WAIT_BUTTON_PRESS }
      ∧ (Reactive.step { Reactive.initialContext with state := .UNPAUSE_WAIT_BUTTON_PRESS }
            (allFlagsInputs true)).1
        = { Reactive.initialContext with state := .UNPAUSE_WAIT_BUTTON_RELEASE }
      ∧ (Reactive.step { Reactive.initialContext with
              state := .UNPAUSE_WAIT_BUTTON_RELEASE, unpausedState := .REORIENT }
            (allFlagsInputs false)).1
        = { Reactive.initialContext with state := .REORIENT, unpausedState := .REORIENT })
    ∧ ((Scripted.step Scripted.initialContext (allFlagsInputs true)).1
        = { Scripted.initialContext with state := .UNPAUSE_WAIT_BUTTON_PRESS }
      ∧ (Scripted.step { Scripted.initialContext with state := .PAUSE_WAIT_BUTTON_RELEASE }
            (allFlagsInputs false)).1
        = { Scripted.initialContext with state := .UNPAUSE_WAIT_BUTTON_PRESS }
      ∧ (Scripted.step { Scripted.initialContext with state := .UNPAUSE_WAIT_BUTTON_PRESS }
            (allFlagsInputs true)).1
        = { Scripted.initialContext with state := .UNPAUSE_WAIT_BUTTON_RELEASE }
      ∧ (Scripted.step { Scripted.initialContext with
              state := .UNPAUSE_WAIT_BUTTON_RELEASE, unpausedState := .TURN_LEFT2 }
            (allFlagsInputs false)).1
        = { Scripted.initialContext with state := .TURN_LEFT2, unpausedState := .TURN_LEFT2 }) :=
  ⟨⟨(pause_table.1 _ _).1 rfl, (pause_table.1 _ _).2.1 rfl, (pause_table.1 _ _).2.2.1 rfl,
      (pause_table.1 _ _).2.2.2 rfl⟩,
   ⟨(pause_table.2 _ _).1 rfl, (pause_table.2 _ _).2.1 rfl, (pause_table.2 _ _).2.2.1 rfl,
      (pause_table.2 _ _).2.2.2 rfl⟩⟩

/-- C3: in both statecharts, from a run-region state `s` a call with the pause
button pressed yields state PAUSE_WAIT_BUTTON_RELEASE with `unpausedState = s`
and changes no other field (both snapshots and `obstacleDirection` are kept),
whatever the obstacle, wall and odometry inputs of that call are. -/
theorem pause_preempts_run_region :
    (∀ (c : Reactive.NavigationContext) (i : Inputs),
        Reactive.isRunState c.state → i.sensors.buttons.play = true →
          (Reactive.step c i).1
            = { c with unpausedState := c.state, state := .PAUSE_WAIT_BUTTON_RELEASE })
    ∧ (∀ (c : Scripted.NavigationContext) (i : Inputs),
        Scripted.isRunState c.state → i.sensors.buttons.play = true →
          (Scripted.step c i).1
            = { c with unpausedState := c.state, state := .PAUSE_WAIT_BUTTON_RELEASE }) := by
  refine ⟨fun c i hs hp => ?_, fun c i hs hp => ?_⟩
  · obtain ⟨s, u, d, x, a⟩ := c
    simp only [Reactive.isRunState] at hs
    rcases hs with hs | hs | hs <;> subst hs <;>
      simp [Reactive.step, Reactive.irobotNavigationStatechart, Reactive.stateTransition,
        Reactive.pauseRegion, hp]
  · obtain ⟨s, u, x, a⟩ := c
    simp only [Scripted.isRunState] at hs
    rcases hs with hs | hs | hs | hs | hs | hs | hs | hs <;> subst hs <;>
      simp [Scripted.step, Scripted.irobotNavigationStatechart, Scripted.stateTransition,
        Scripted.pauseRegion, hp]

/-- Witness of C3: AVOID (reactive) and DRIVE (scripted) with the button
pressed, every obstacle and wall flag asserted and the distance threshold met
(5000 mm travelled since the snapshot at 0). -/
theorem pause_preempts_run_region_witness :
    (Reactive.step { Reactive.initialContext with state := .AVOID } (allFlagsInputs true)).1
        = { Reactive.initialContext with
              unpausedState := .AVOID, state := .PAUSE_WAIT_BUTTON_RELEASE }
    ∧ (Scripted.step { Scripted.initialContext with state := .DRIVE } (allFlagsInputs true)).1
        = { Scripted.initialContext with
              unpausedState := .DRIVE, state := .PAUSE_WAIT_BUTTON_RELEASE } :=
  ⟨pause_preempts_run_region.1 _ _ (by decide) rfl,
   pause_preempts_run_region.2 _ _ (by decide) rfl⟩

/-- C4: in both statecharts, from UNPAUSE_WAIT_BUTTON_PRESS with saved run
state `r`, a call with the button pressed yields UNPAUSE_WAIT_BUTTON_RELEASE
with outputs (0, 0), and the next call, with the button released, yields state
`r` (nothing else in the context changes) with the wheel speeds of the action of
`r`; and no single call leads from UNPAUSE_WAIT_BUTTON_PRESS to a run state. -/
theorem press_then_release_resumes :
    (∀ (c : Reactive.NavigationContext) (i₁ i₂ : Inputs),
        c.state = .UNPAUSE_WAIT_BUTTON_PRESS →
        i₁.sensors.buttons.play = true → i₂.sensors.buttons.play = false →
          (Reactive.step c i₁).1.state = .UNPAUSE_WAIT_BUTTON_RELEASE
          ∧ (Reactive.step c i₁).2 = { leftWheelSpeed := 0, rightWheelSpeed := 0 }
          ∧ (Reactive.step (Reactive.step c i₁).1 i₂).1 = { c with state := c.unpausedState }
          ∧ (Reactive.step (Reactive.step c i₁).1 i₂).2
              = Reactive.stateActions i₂.netAngle { c with state := c.unpausedState })
    ∧ (∀ (c : Reactive.NavigationContext) (i : Inputs),
        c.state = .UNPAUSE_WAIT_BUTTON_PRESS → ¬ Reactive.isRunState (Reactive.step c i).1.state)
    ∧ (∀ (c : Scripted.NavigationContext) (i₁ i₂ : Inputs),
        c.state = .UNPAUSE_WAIT_BUTTON_PRESS →
        i₁.sensors.buttons.play = true → i₂.sensors.buttons.play = false →
          (Scripted.step c i₁).1.state = .UNPAUSE_WAIT_BUTTON_RELEASE
          ∧ (Scripted.step c i₁).2 = { leftWheelSpeed := 0, rightWheelSpeed := 0 }
          ∧ (Scripted.step (Scripted.step c i₁).1 i₂).1 = { c with state := c.unpausedState }
          ∧ (Scripted.step (Scripted.step c i₁).1 i₂).2
              = Scripted.stateActions { c with state := c.unpausedState })
    ∧ (∀ (c : Scripted.NavigationContext) (i : Inputs),
        c.state = .UNPAUSE_WAIT_BUTTON_PRESS →
          ¬ Scripted.isRunState (Scripted.step c i).1.state) := by
  refine ⟨fun c i₁ i₂ hs h₁ h₂ => ?_, fun c i hs => ?_, fun c i₁ i₂ hs h₁ h₂ => ?_,
    fun c i hs => ?_⟩
  · obtain ⟨s, u, d, x, a⟩ := c
    simp only at hs
    subst hs
    simp [Reactive.step, Reactive.irobotNavigationStatechart, Reactive.stateTransition,
      Reactive.pauseRegion, Reactive.stateActions, h₁, h₂]
  · obtain ⟨s, u, d, x, a⟩ := c
    simp only at hs
    subst hs
    by_cases hp : i.sensors.buttons.play = true <;>
      simp [Reactive.step, Reactive.irobotNavigationStatechart, Reactive.stateTransition,
        Reactive.pauseRegion, Reactive.isRunState, hp]
  · obtain ⟨s, u, x, a⟩ := c
    simp only at hs
    subst hs
    simp [Scripted.step, Scripted.irobotNavigationStatechart, Scripted.stateTransition,
      Scripted.pauseRegion, Scripted.stateActions, h₁, h₂]
  · obtain ⟨s, u, x, a⟩ := c
    simp only at hs
    subst hs
    by_cases hp : i.sensors.buttons.play = true <;>
      simp [Scripted.step, Scripted.irobotNavigationStatechart, Scripted.stateTransition,
        Scripted.pauseRegion, Scripted.isRunState, hp]

/-- Witness of C4: saved run state DRIVE, press then release with every other
flag asserted; the second call resumes DRIVE and drives at (200, 200). -/
theorem press_then_release_resumes_witness :
    ((Reactive.step { Reactive.initialContext with state := .UNPAUSE_WAIT_BUTTON_PRESS }
          (allFlagsInputs true)).1.state = .UNPAUSE_WAIT_BUTTON_RELEASE
      ∧ (Reactive.step { Reactive.initialContext with state := .UNPAUSE_WAIT_BUTTON_PRESS }
          (allFlagsInputs true)).2 = { leftWheelSpeed := 0, rightWheelSpeed := 0 }
      ∧ (Reactive.step
          (Reactive.step { Reactive.initialContext with state := .UNPAUSE_WAIT_BUTTON_PRESS }
            (allFlagsInputs true)).1 (allFlagsInputs false)).1
          = { Reactive.initialContext with state := .DRIVE }
      ∧ (Reactive.step
          (Reactive.step { Reactive.initialContext with state := .UNPAUSE_WAIT_BUTTON_PRESS }
            (allFlagsInputs true)).1 (allFlagsInputs false)).2
          = { leftWheelSpeed := 200, rightWheelSpeed := 200 })
    ∧ ((Scripted.step { Scripted.initialContext with state := .UNPAUSE_WAIT_BUTTON_PRESS }
          (allFlagsInputs true)).1.state = .UNPAUSE_WAIT_BUTTON_RELEASE
      ∧ (Scripted.step { Scripted.initialContext with state := .UNPAUSE_WAIT_BUTTON_PRESS }
          (allFlagsInputs true)).2 = { leftWheelSpeed := 0, rightWheelSpeed := 0 }
      ∧ (Scripted.step
          (Scripted.step { Scripted.initialContext with state := .UNPAUSE_WAIT_BUTTON_PRESS }
            (allFlagsInputs true)).1 (allFlagsInputs false)).1
          = { Scripted.initialContext with state := .DRIVE }
      ∧ (Scripted.step
          (Scripted.step { Scripted.initialContext with state := .UNPAUSE_WAIT_BUTTON_PRESS }
            (allFlagsInputs true)).1 (allFlagsInputs false)).2
          = { leftWheelSpeed := 200, rightWheelSpeed := 200 }) :=
  ⟨press_then_release_resumes.1 _ _ _ rfl rfl rfl,
   press_then_release_resumes.2.2.1 _ _ _ rfl rfl rfl⟩

/-- C5, as stated, fails: from DRIVE, one call with the pause button pressed
followed by one call with it released leaves both statecharts paused in
UNPAUSE_WAIT_BUTTON_PRESS, not back in DRIVE. -/
theorem pause_then_release_stays_paused :
    ({ Reactive.initialContext with state := .DRIVE } : Reactive.NavigationContext).state
        = .DRIVE
    ∧ pressInputs.sensors.buttons.play = true ∧ releaseInputs.sensors.buttons.play = false
    ∧ (Reactive.step (Reactive.step { Reactive.initialContext with state := .DRIVE }
          pressInputs).1 releaseInputs).1.state = .UNPAUSE_WAIT_BUTTON_PRESS
    ∧ (Reactive.step (Reactive.step { Reactive.initialContext with state := .DRIVE }
          pressInputs).1 releaseInputs).1.state ≠ .DRIVE
    ∧ (Scripted.step (Scripted.step { Scripted.initialContext with state := .DRIVE }
          pressInputs).1 releaseInputs).1.state = .UNPAUSE_WAIT_BUTTON_PRESS
    ∧ (Scripted.step (Scripted.step { Scripted.initialContext with state := .DRIVE }
          pressInputs).1 releaseInputs).1.state ≠ .DRIVE := by
  decide

/-- C5, amended: in both statecharts, from a run-region state `s`, one call with
the pause button pressed followed by one call with it released leaves the
machine in UNPAUSE_WAIT_BUTTON_PRESS with `unpausedState = s` and both
snapshots unchanged; a second press followed by a release then returns the
machine to state `s`, with `distanceAtManeuverStart` and `angleAtManeuverStart`
equal to their values before the four calls. -/
theorem pause_resume_roundtrip :
    (∀ (c : Reactive.NavigationContext) (i₁ i₂ i₃ i₄ : Inputs),
        Reactive.isRunState c.state →
        i₁.sensors.buttons.play = true → i₂.sensors.buttons.play = false →
        i₃.sensors.buttons.play = true → i₄.sensors.buttons.play = false →
          (Reactive.step (Reactive.step c i₁).1 i₂).1
              = { c with unpausedState := c.state, state := .UNPAUSE_WAIT_BUTTON_PRESS }
          ∧ (Reactive.step (Reactive.step (Reactive.step (Reactive.step c i₁).1 i₂).1 i₃).1
                i₄).1.state = c.state
          ∧ (Reactive.step (Reactive.step (Reactive.step (Reactive.step c i₁).1 i₂).1 i₃).1
                i₄).1.distanceAtManeuverStart = c.distanceAtManeuverStart
          ∧ (Reactive.step (Reactive.step (Reactive.step (Reactive.step c i₁).1 i₂).1 i₃).1
                i₄).1.angleAtManeuverStart = c.angleAtManeuverStart)
    ∧ (∀ (c : Scripted.NavigationContext) (i₁ i₂ i₃ i₄ : Inputs),
        Scripted.isRunState c.state →
        i₁.sensors.buttons.play = true → i₂.sensors.buttons.play = false →
        i₃.sensors.buttons.play = true → i₄.sensors.buttons.play = false →
          (Scripted.step (Scripted.step c i₁).1 i₂).1
              = { c with unpausedState := c.state, state := .UNPAUSE_WAIT_BUTTON_PRESS }
          ∧ (Scripted.step (Scripted.step (Scripted.step (Scripted.step c i₁).1 i₂).1 i₃).1
                i₄).1.state = c.state
          ∧ (Scripted.step (Scripted.step (Scripted.step (Scripted.step c i₁).1 i₂).1 i₃).1
                i₄).1.distanceAtManeuverStart = c.distanceAtManeuverStart
          ∧ (Scripted.step (Scripted.step (Scripted.step (Scripted.step c i₁).1 i₂).1 i₃).1
                i₄).1.angleAtManeuverStart = c.angleAtManeuverStart) := by
  refine ⟨fun c i₁ i₂ i₃ i₄ hs h₁ h₂ h₃ h₄ => ?_, fun c i₁ i₂ i₃ i₄ hs h₁ h₂ h₃ h₄ => ?_⟩
  · obtain ⟨s, u, d, x, a⟩ := c
    simp only [Reactive.isRunState] at hs
    rcases hs with hs | hs | hs <;> subst hs <;>
      simp [Reactive.step, Reactive.irobotNavigationStatechart, Reactive.stateTransition,
        Reactive.pauseRegion, h₁, h₂, h₃, h₄]
  · obtain ⟨s, u, x, a⟩ := c
    simp only [Scripted.isRunState] at hs
    rcases hs with hs | hs | hs | hs | hs | hs | hs | hs <;> subst hs <;>
      simp [Scripted.step, Scripted.irobotNavigationStatechart, Scripted.stateTransition,
        Scripted.pauseRegion, h₁, h₂, h₃, h₄]

/-- Witness of the amended C5: REORIENT / TURN2 with snapshots 1200 and -45,
paused and resumed with every other flag asserted. -/
theorem pause_resume_roundtrip_witness :
    ((Reactive.step (Reactive.step
          { state := .REORIENT, unpausedState := .DRIVE, obstacleDirection := .RIGHT,
            distanceAtManeuverStart := 1200, angleAtManeuverStart := -45 }
          (allFlagsInputs true)).1 (allFlagsInputs false)).1
        = { state := .UNPAUSE_WAIT_BUTTON_PRESS, unpausedState := .REORIENT,
            obstacleDirection := .RIGHT, distanceAtManeuverStart := 1200,
            angleAtManeuverStart := -45 }
      ∧ (Reactive.step (Reactive.step (Reactive.step (Reactive.step
          { state := .REORIENT, unpausedState := .DRIVE, obstacleDirection := .RIGHT,
            distanceAtManeuverStart := 1200, angleAtManeuverStart := -45 }
          (allFlagsInputs true)).1 (allFlagsInputs false)).1 (allFlagsInputs true)).1
          (allFlagsInputs false)).1.state = .REORIENT
      ∧ (Reactive.step (Reactive.step (Reactive.step (Reactive.step
          { state := .REORIENT, unpausedState := .DRIVE, obstacleDirection := .RIGHT,
            distanceAtManeuverStart := 1200, angleAtManeuverStart := -45 }
          (allFlagsInputs true)).1 (allFlagsInputs false)).1 (allFlagsInputs true)).1
          (allFlagsInputs false)).1.distanceAtManeuverStart = 1200
      ∧ (Reactive.step (Reactive.step (Reactive.step (Reactive.step
          { state := .REORIENT, unpausedState := .DRIVE, obstacleDirection := .RIGHT,
            distanceAtManeuverStart := 1200, angleAtManeuverStart := -45 }
          (allFlagsInputs true)).1 (allFlagsInputs false)).1 (allFlagsInputs true)).1
          (allFlagsInputs false)).1.angleAtManeuverStart = -45)
    ∧ ((Scripted.step (Scripted.step
          { state := .TURN2, unpausedState := .DRIVE,
            distanceAtManeuverStart := 1200, angleAtManeuverStart := -45 }
          (allFlagsInputs true)).1 (allFlagsInputs false)).1
        = { state := .UNPAUSE_WAIT_BUTTON_PRESS, unpausedState := .TURN2,
            distanceAtManeuverStart := 1200, angleAtManeuverStart := -45 }
      ∧ (Scripted.step (Scripted.step (Scripted.step (Scripted.step
          { state := .TURN2, unpausedState := .DRIVE,
            distanceAtManeuverStart := 1200, angleAtManeuverStart := -45 }
          (allFlagsInputs true)).1 (allFlagsInputs false)).1 (allFlagsInputs true)).1
          (allFlagsInputs false)).1.state = .TURN2
      ∧ (Scripted.step (Scripted.step (Scripted.step (Scripted.step
          { state := .TURN2, unpausedState := .DRIVE,
            distanceAtManeuverStart := 1200, angleAtManeuverStart := -45 }
          (allFlagsInputs true)).1 (allFlagsInputs false)).1 (allFlagsInputs true)).1
          (allFlagsInputs false)).1.distanceAtManeuverStart = 1200
      ∧ (Scripted.step (Scripted.step (Scripted.step (Scripted.step
          { state := .TURN2, unpausedState := .DRIVE,
            distanceAtManeuverStart := 1200, angleAtManeuverStart := -45 }
          (allFlagsInputs true)).1 (allFlagsInputs false)).1 (allFlagsInputs true)).1
          (allFlagsInputs false)).1.angleAtManeuverStart = -45) :=
  ⟨pause_resume_roundtrip.1 _ _ _ _ _ (by decide) rfl rfl rfl rfl,
   pause_resume_roundtrip.2 _ _ _ _ _ (by decide) rfl rfl rfl rfl⟩

/-- C6: start-up scenario in both statecharts.  From the initial context, a
call with all-zero inputs and `isSimulator = true` gives
UNPAUSE_WAIT_BUTTON_PRESS and (0, 0); a call with only the button pressed gives
UNPAUSE_WAIT_BUTTON_RELEASE and (0, 0); a call with the button released gives
DRIVE and (200, 200) = (driveSpeed, driveSpeed). -/
theorem startup_scenario :
    (Reactive.initialContext
        = { state := .INITIAL, unpausedState := .DRIVE, obstacleDirection := .LEFT,
            distanceAtManeuverStart := 0, angleAtManeuverStart := 0 }
      ∧ (Reactive.step Reactive.initialContext releaseInputs).1.state
          = .UNPAUSE_WAIT_BUTTON_PRESS
      ∧ (Reactive.step Reactive.initialContext releaseInputs).2
          = { leftWheelSpeed := 0, rightWheelSpeed := 0 }
      ∧ (Reactive.step (Reactive.step Reactive.initialContext releaseInputs).1
            pressInputs).1.state = .UNPAUSE_WAIT_BUTTON_RELEASE
      ∧ (Reactive.step (Reactive.step Reactive.initialContext releaseInputs).1
            pressInputs).2 = { leftWheelSpeed := 0, rightWheelSpeed := 0 }
      ∧ (Reactive.step (Reactive.step (Reactive.step Reactive.initialContext
            releaseInputs).1 pressInputs).1 releaseInputs).1.state = .DRIVE
      ∧ (Reactive.step (Reactive.step (Reactive.step Reactive.initialContext
            releaseInputs).1 pressInputs).1 releaseInputs).2
          = { leftWheelSpeed := 200, rightWheelSpeed := 200 }
      ∧ (Reactive.step (Reactive.step (Reactive.step Reactive.initialContext
            releaseInputs).1 pressInputs).1 releaseInputs).2
          = { leftWheelSpeed := Reactive.driveSpeed, rightWheelSpeed := Reactive.driveSpeed })
    ∧ (Scripted.initialContext
        = { state := .INITIAL, unpausedState := .DRIVE,
            distanceAtManeuverStart := 0, angleAtManeuverStart := 0 }
      ∧ (Scripted.step Scripted.initialContext releaseInputs).1.state
          = .UNPAUSE_WAIT_BUTTON_PRESS
      ∧ (Scripted.step Scripted.initialContext releaseInputs).2
          = { leftWheelSpeed := 0, rightWheelSpeed := 0 }
      ∧ (Scripted.step (Scripted.step Scripted.initialContext releaseInputs).1
            pressInputs).1.state = .UNPAUSE_WAIT_BUTTON_RELEASE
      ∧ (Scripted.step (Scripted.step Scripted.initialContext releaseInputs).1
            pressInputs).2 = { leftWheelSpeed := 0, rightWheelSpeed := 0 }
      ∧ (Scripted.step (Scripted.step (Scripted.step Scripted.initialContext
            releaseInputs).1 pressInputs).1 releaseInputs).1.state = .DRIVE
      ∧ (Scripted.step (Scripted.step (Scripted.step Scripted.initialContext
            releaseInputs).1 pressInputs).1 releaseInputs).2
          = { leftWheelSpeed := 200, rightWheelSpeed := 200 }) := by
  decide

/-! ## The saved run state -/

/-- One call of the reactive statechart keeps `unpausedState` a run state. -/
theorem reactive_step_unpausedState_run (c : Reactive.NavigationContext) (i : Inputs)
    (h : Reactive.isRunState c.unpausedState) :
    Reactive.isRunState (Reactive.step c i).1.unpausedState := by
  obtain ⟨s, u, d, x, a⟩ := c
  simp only [Reactive.isRunState] at h ⊢
  simp only [Reactive.step, Reactive.irobotNavigationStatechart, Reactive.stateTransition,
    Reactive.obstacleRegion]
  cases s <;> simp [Reactive.pauseRegion] <;> (try split_ifs) <;> simp_all

/-- Every sequence of calls of the reactive statechart keeps `unpausedState` a
run state. -/
theorem reactive_run_unpausedState_run (is : List Inputs) :
    ∀ c : Reactive.NavigationContext, Reactive.isRunState c.unpausedState →
      Reactive.isRunState (Reactive.run c is).unpausedState := by
  induction is with
  | nil => intro c h; exact h
  | cons i rest ih =>
    intro c h
    exact ih (Reactive.step c i).1 (reactive_step_unpausedState_run c i h)

/-- One call of the scripted statechart keeps `unpausedState` a run state. -/
theorem scripted_step_unpausedState_run (c : Scripted.NavigationContext) (i : Inputs)
    (h : Scripted.isRunState c.unpausedState) :
    Scripted.isRunState (Scripted.step c i).1.unpausedState := by
  obtain ⟨s, u, x, a⟩ := c
  simp only [Scripted.isRunState] at h ⊢
  simp only [Scripted.step, Scripted.irobotNavigationStatechart, Scripted.stateTransition]
  cases s <;> simp [Scripted.pauseRegion] <;> (try split_ifs) <;> simp_all

/-- Every sequence of calls of the scripted statechart keeps `unpausedState` a
run state. -/
theorem scripted_run_unpausedState_run (is : List Inputs) :
    ∀ c : Scripted.NavigationContext, Scripted.isRunState c.unpausedState →
      Scripted.isRunState (Scripted.run c is).unpausedState := by
  induction is with
  | nil => intro c h; exact h
  | cons i rest ih =>
    intro c h
    exact ih (Scripted.step c i).1 (scripted_step_unpausedState_run c i h)

/-- C7: in both statecharts, in every context reached from the initial context
by a finite sequence of calls, `unpausedState` is a run-region state and none of
the four pause-region states; hence a call that resumes from
UNPAUSE_WAIT_BUTTON_RELEASE (button released) lands in a run-region state. -/
theorem unpausedState_always_run_state :
    (∀ is : List Inputs,
        Reactive.isRunState (Reactive.run Reactive.initialContext is).unpausedState
        ∧ ¬ Reactive.isPauseState (Reactive.run Reactive.initialContext is).unpausedState
        ∧ ∀ i : Inputs,
            (Reactive.run Reactive.initialContext is).state = .UNPAUSE_WAIT_BUTTON_RELEASE →
            i.sensors.buttons.play = false →
              Reactive.isRunState
                (Reactive.step (Reactive.run Reactive.initialContext is) i).1.state)
    ∧ (∀ is : List Inputs,
        Scripted.isRunState (Scripted.run Scripted.initialContext is).unpausedState
        ∧ ¬ Scripted.isPauseState (Scripted.run Scripted.initialContext is).unpausedState
        ∧ ∀ i : Inputs,
            (Scripted.run Scripted.initialContext is).state = .UNPAUSE_WAIT_BUTTON_RELEASE →
            i.sensors.buttons.play = false →
              Scripted.isRunState
                (Scripted.step (Scripted.run Scripted.initialContext is) i).1.state) := by
  constructor
  · intro is
    have hrun := reactive_run_unpausedState_run is Reactive.initialContext (by decide)
    refine ⟨hrun, ?_, ?_⟩
    · intro hp
      simp only [Reactive.isRunState] at hrun
      simp only [Reactive.isPauseState] at hp
      rcases hrun with h | h | h <;> rw [h] at hp <;> simp at hp
    · intro i hs hp
      have hnext : (Reactive.step (Reactive.run Reactive.initialContext is) i).1.state
          = (Reactive.run Reactive.initialContext is).unpausedState := by
        simp [Reactive.step, Reactive.irobotNavigationStatechart, Reactive.stateTransition,
          Reactive.pauseRegion, hs, hp]
      rw [hnext]
      exact hrun
  · intro is
    have hrun := scripted_run_unpausedState_run is Scripted.initialContext (by decide)
    refine ⟨hrun, ?_, ?_⟩
    · intro hp
      simp only [Scripted.isRunState] at hrun
      simp only [Scripted.isPauseState] at hp
      rcases hrun with h | h | h | h | h | h | h | h <;> rw [h] at hp <;> simp at hp
    · intro i hs hp
      have hnext : (Scripted.step (Scripted.run Scripted.initialContext is) i).1.state
          = (Scripted.run Scripted.initialContext is).unpausedState := by
        simp [Scripted.step, Scripted.irobotNavigationStatechart, Scripted.stateTransition,
          Scripted.pauseRegion, hs, hp]
      rw [hnext]
      exact hrun

/-- Witness of C7: after the calls release, press the machine is in
UNPAUSE_WAIT_BUTTON_RELEASE with `unpausedState = DRIVE`, and the release call
resumes in a run state. -/
theorem unpausedState_always_run_state_witness :
    ((Reactive.run Reactive.initialContext [releaseInputs, pressInputs]).state
        = .UNPAUSE_WAIT_BUTTON_RELEASE
      ∧ releaseInputs.sensors.buttons.play = false
      ∧ Reactive.isRunState (Reactive.step
          (Reactive.run Reactive.initialContext [releaseInputs, pressInputs])
          releaseInputs).1.state)
    ∧ ((Scripted.run Scripted.initialContext [releaseInputs, pressInputs]).state
        = .UNPAUSE_WAIT_BUTTON_RELEASE
      ∧ releaseInputs.sensors.buttons.play = false
      ∧ Scripted.isRunState (Scripted.step
          (Scripted.run Scripted.initialContext [releaseInputs, pressInputs])
          releaseInputs).1.state) :=
  ⟨⟨by decide, rfl,
      (unpausedState_always_run_state.1 [releaseInputs, pressInputs]).2.2 releaseInputs
        (by decide) rfl⟩,
   ⟨by decide, rfl,
      (unpausedState_always_run_state.2 [releaseInputs, pressInputs]).2.2 releaseInputs
        (by decide) rfl⟩⟩

/-! ## Reactive avoidance policy -/

/-- C8: reactive statechart, from DRIVE with the pause button not pressed.  If
any of the eight bump, wheel-drop and cliff flags is asserted, the call yields
AVOID with `distanceAtManeuverStart = netDistance`,
`angleAtManeuverStart = netAngle`, and `obstacleDirection` LEFT when one of
bumpLeft, wheeldropLeft, cliffLeft, cliffFrontLeft is asserted (whatever the
right-side flags are) and RIGHT otherwise; if none is asserted the state stays
DRIVE.  In particular DRIVE with bumpLeft gives AVOID with direction LEFT. -/
theorem drive_to_avoid (c : Reactive.NavigationContext) (i : Inputs)
    (hs : c.state = .DRIVE) (hp : i.sensors.buttons.play = false) :
    ((i.sensors.bumps_wheelDrops.bumpLeft = true ∨ i.sensors.bumps_wheelDrops.bumpRight = true
        ∨ i.sensors.bumps_wheelDrops.wheeldropLeft = true
        ∨ i.sensors.bumps_wheelDrops.wheeldropRight = true
        ∨ i.sensors.cliffLeft = true ∨ i.sensors.cliffFrontLeft = true
        ∨ i.sensors.cliffFrontRight = true ∨ i.sensors.cliffRight = true) →
      (Reactive.step c i).1
        = { c with
            state := .AVOID
            distanceAtManeuverStart := i.netDistance
            angleAtManeuverStart := i.netAngle
            obstacleDirection :=
              if i.sensors.bumps_wheelDrops.bumpLeft = true
                  ∨ i.sensors.bumps_wheelDrops.wheeldropLeft = true
                  ∨ i.sensors.cliffLeft = true ∨ i.sensors.cliffFrontLeft = true
              then .LEFT else .RIGHT })
    ∧ (¬ (i.sensors.bumps_wheelDrops.bumpLeft = true ∨ i.sensors.bumps_wheelDrops.bumpRight = true
        ∨ i.sensors.bumps_wheelDrops.wheeldropLeft = true
        ∨ i.sensors.bumps_wheelDrops.wheeldropRight = true
        ∨ i.sensors.cliffLeft = true ∨ i.sensors.cliffFrontLeft = true
        ∨ i.sensors.cliffFrontRight = true ∨ i.sensors.cliffRight = true) →
      (Reactive.step c i).1.state = .DRIVE)
    ∧ (i.sensors.bumps_wheelDrops.bumpLeft = true →
      (Reactive.step c i).1.state = .AVOID ∧ (Reactive.step c i).1.obstacleDirection = .LEFT) := by
  obtain ⟨s, u, d, x, a⟩ := c
  simp only at hs
  subst hs
  have hp2 : ¬ i.sensors.buttons.play = true := by simp [hp]
  refine ⟨?_, ?_, ?_⟩
  · intro hob
    have hob2 : Reactive.obstacleEncountered i.sensors := by
      unfold Reactive.obstacleEncountered; exact hob
    simp only [Reactive.step, Reactive.irobotNavigationStatechart, Reactive.stateTransition,
      Reactive.obstacleRegion, Reactive.obstacleOnLeft]
    simp only [hob2, hp2]
    simp
    split_ifs <;> rfl
  · intro hno
    have hno2 : ¬ Reactive.obstacleEncountered i.sensors := by
      unfold Reactive.obstacleEncountered; exact hno
    simp [Reactive.step, Reactive.irobotNavigationStatechart, Reactive.stateTransition, hno2, hp]
  · intro hb
    have hob2 : Reactive.obstacleEncountered i.sensors := by
      unfold Reactive.obstacleEncountered; exact Or.inl hb
    simp [Reactive.step, Reactive.irobotNavigationStatechart, Reactive.stateTransition,
      Reactive.obstacleRegion, Reactive.obstacleOnLeft, hob2, hp, hb]

/-- Witness of C8: from DRIVE, both bump flags asserted at odometry (1234, -7)
gives AVOID with direction LEFT; only cliffRight asserted gives direction
RIGHT; no flag asserted stays in DRIVE. -/
theorem drive_to_avoid_witness :
    (Reactive.step { Reactive.initialContext with state := .DRIVE }
        (odometryInputs 1234 (-7) bothBumpsSensors)).1
      = { state := .AVOID, unpausedState := .DRIVE, obstacleDirection := .LEFT,
          distanceAtManeuverStart := 1234, angleAtManeuverStart := -7 }
    ∧ (Reactive.step { Reactive.initialContext with state := .DRIVE }
        (odometryInputs 1234 (-7) cliffRightSensors)).1
      = { state := .AVOID, unpausedState := .DRIVE, obstacleDirection := .RIGHT,
          distanceAtManeuverStart := 1234, angleAtManeuverStart := -7 }
    ∧ (Reactive.step { Reactive.initialContext with state := .DRIVE }
        (odometryInputs 1234 (-7) zeroSensors)).1.state = .DRIVE :=
  ⟨(drive_to_avoid _ (odometryInputs 1234 (-7) bothBumpsSensors) rfl rfl).1 (by decide),
   (drive_to_avoid _ (odometryInputs 1234 (-7) cliffRightSensors) rfl rfl).1 (by decide),
   (drive_to_avoid _ (odometryInputs 1234 (-7) zeroSensors) rfl rfl).2.1 (by decide)⟩

/-- C9: reactive statechart, from AVOID with the pause button not pressed, for
odometry whose difference `netDistance - distanceAtManeuverStart` and its
absolute value fit in an `int32_t` (so neither the subtraction nor `abs`
overflows).  The next state is REORIENT exactly when no obstacle flag is
asserted and `|netDistance - distanceAtManeuverStart| >= avoidDistance = 250`;
with an obstacle flag asserted the state stays AVOID whatever the distance;
and the call that enters REORIENT changes neither snapshot. -/
theorem avoid_to_reorient_iff (c : Reactive.NavigationContext) (i : Inputs)
    (hs : c.state = .AVOID) (hp : i.sensors.buttons.play = false)
    (hlo : -2147483648 < i.netDistance - c.distanceAtManeuverStart)
    (hhi : i.netDistance - c.distanceAtManeuverStart < 2147483648) :
    Reactive.avoidDistance = 250
    ∧ ((Reactive.step c i).1.state = .REORIENT ↔
        (¬ (i.sensors.bumps_wheelDrops.bumpLeft = true
            ∨ i.sensors.bumps_wheelDrops.bumpRight = true
            ∨ i.sensors.bumps_wheelDrops.wheeldropLeft = true
            ∨ i.sensors.bumps_wheelDrops.wheeldropRight = true
            ∨ i.sensors.cliffLeft = true ∨ i.sensors.cliffFrontLeft = true
            ∨ i.sensors.cliffFrontRight = true ∨ i.sensors.cliffRight = true)
          ∧ |i.netDistance - c.distanceAtManeuverStart| ≥ Reactive.avoidDistance))
    ∧ ((i.sensors.bumps_wheelDrops.bumpLeft = true
            ∨ i.sensors.bumps_wheelDrops.bumpRight = true
            ∨ i.sensors.bumps_wheelDrops.wheeldropLeft = true
            ∨ i.sensors.bumps_wheelDrops.wheeldropRight = true
            ∨ i.sensors.cliffLeft = true ∨ i.sensors.cliffFrontLeft = true
            ∨ i.sensors.cliffFrontRight = true ∨ i.sensors.cliffRight = true) →
        (Reactive.step c i).1.state = .AVOID)
    ∧ ((Reactive.step c i).1.state = .REORIENT →
        (Reactive.step c i).1.distanceAtManeuverStart = c.distanceAtManeuverStart
        ∧ (Reactive.step c i).1.angleAtManeuverStart = c.angleAtManeuverStart) := by
  obtain ⟨s, u, d, x, a⟩ := c
  simp only at hs hlo hhi
  subst hs
  have habs := abs32_sub32_eq i.netDistance x hlo hhi
  have hp2 : ¬ i.sensors.buttons.play = true := by simp [hp]
  refine ⟨rfl, ?_, ?_, ?_⟩
  · by_cases hob : Reactive.obstacleEncountered i.sensors
    · have hob2 := hob
      unfold Reactive.obstacleEncountered at hob2
      simp [Reactive.step, Reactive.irobotNavigationStatechart, Reactive.stateTransition,
        Reactive.obstacleRegion, hob, hp, hob2]
      split_ifs <;> simp
    · have hob2 := hob
      unfold Reactive.obstacleEncountered at hob2
      by_cases hd : |i.netDistance - x| ≥ Reactive.avoidDistance
      · simp [Reactive.step, Reactive.irobotNavigationStatechart, Reactive.stateTransition,
          hob, hp, hob2, habs, hd]
      · simp [Reactive.step, Reactive.irobotNavigationStatechart, Reactive.stateTransition,
          hob, hp, habs, hd]
  · intro hob
    have hob2 : Reactive.obstacleEncountered i.sensors := by
      unfold Reactive.obstacleEncountered; exact hob
    simp [Reactive.step, Reactive.irobotNavigationStatechart, Reactive.stateTransition,
      Reactive.obstacleRegion, hob2, hp]
    split_ifs <;> rfl
  · by_cases hob : Reactive.obstacleEncountered i.sensors
    · simp [Reactive.step, Reactive.irobotNavigationStatechart, Reactive.stateTransition,
        Reactive.obstacleRegion, hob, hp]
      split_ifs <;> simp
    · by_cases hd : |i.netDistance - x| ≥ Reactive.avoidDistance
      · simp [Reactive.step, Reactive.irobotNavigationStatechart, Reactive.stateTransition,
          hob, hp, habs, hd]
      · simp [Reactive.step, Reactive.irobotNavigationStatechart, Reactive.stateTransition,
          hob, hp, habs, hd]

/-- Witness of C9: from AVOID with the snapshot at 1000 and no flag asserted, a
net distance of 1250 or 750 (difference 250 or -250) enters REORIENT and 1249
(difference 249) does not; with both bumps asserted a difference of 5000 stays
in AVOID. -/
theorem avoid_to_reorient_iff_witness :
    (Reactive.step { Reactive.initialContext with
          state := .AVOID, distanceAtManeuverStart := 1000 }
        (odometryInputs 1250 0 zeroSensors)).1.state = .REORIENT
    ∧ (Reactive.step { Reactive.initialContext with
          state := .AVOID, distanceAtManeuverStart := 1000 }
        (odometryInputs 750 0 zeroSensors)).1.state = .REORIENT
    ∧ (Reactive.step { Reactive.initialContext with
          state := .AVOID, distanceAtManeuverStart := 1000 }
        (odometryInputs 1249 0 zeroSensors)).1.state ≠ .REORIENT
    ∧ (Reactive.step { Reactive.initialContext with
          state := .AVOID, distanceAtManeuverStart := 1000 }
        (odometryInputs 6000 0 bothBumpsSensors)).1.state = .AVOID :=
  ⟨(avoid_to_reorient_iff
      { Reactive.initialContext with state := .AVOID, distanceAtManeuverStart := 1000 }
      (odometryInputs 1250 0 zeroSensors) rfl rfl (by decide) (by decide)).2.1.mpr
      ⟨by decide, by decide⟩,
   (avoid_to_reorient_iff
      { Reactive.initialContext with state := .AVOID, distanceAtManeuverStart := 1000 }
      (odometryInputs 750 0 zeroSensors) rfl rfl (by decide) (by decide)).2.1.mpr
      ⟨by decide, by decide⟩,
   fun h => absurd ((avoid_to_reorient_iff
      { Reactive.initialContext with state := .AVOID, distanceAtManeuverStart := 1000 }
      (odometryInputs 1249 0 zeroSensors) rfl rfl (by decide) (by decide)).2.1.mp h).2
      (by decide),
   (avoid_to_reorient_iff
      { Reactive.initialContext with state := .AVOID, distanceAtManeuverStart := 1000 }
      (odometryInputs 6000 0 bothBumpsSensors) rfl rfl (by decide) (by decide)).2.2.1
      (by decide)⟩

/-- C10, as stated, fails: in REORIENT with the pause button not pressed and
`|netAngle - angleAtManeuverStart| = 0 <= 2`, a call with bumpLeft asserted
yields AVOID, not DRIVE, and the wheel speeds (-200, -12), not (200, 200). -/
theorem reorient_with_obstacle_avoids :
    ({ Reactive.initialContext with state := .REORIENT } : Reactive.NavigationContext).state
        = .REORIENT
    ∧ (odometryInputs 0 0 bothBumpsSensors).sensors.buttons.play = false
    ∧ |(odometryInputs 0 0 bothBumpsSensors).netAngle
          - ({ Reactive.initialContext with state := .REORIENT }
              : Reactive.NavigationContext).angleAtManeuverStart| ≤ 2
    ∧ (Reactive.step { Reactive.initialContext with state := .REORIENT }
          (odometryInputs 0 0 bothBumpsSensors)).1.state = .AVOID
    ∧ (Reactive.step { Reactive.initialContext with state := .REORIENT }
          (odometryInputs 0 0 bothBumpsSensors)).1.state ≠ .DRIVE
    ∧ (Reactive.step { Reactive.initialContext with state := .REORIENT }
          (odometryInputs 0 0 bothBumpsSensors)).2
        = { leftWheelSpeed := -200, rightWheelSpeed := -12 } := by
  decide

/-- C10, amended: reactive statechart, from REORIENT with the pause button not
pressed and none of the eight bump, wheel-drop and cliff flags asserted, if
`|netAngle - angleAtManeuverStart| <= reorientTolerance = 2` then the next
state is DRIVE and the wheel speeds of that call are (200, 200) =
(driveSpeed, driveSpeed). -/
theorem reorient_to_drive (c : Reactive.NavigationContext) (i : Inputs)
    (hs : c.state = .REORIENT) (hp : i.sensors.buttons.play = false)
    (hno : ¬ (i.sensors.bumps_wheelDrops.bumpLeft = true
        ∨ i.sensors.bumps_wheelDrops.bumpRight = true
        ∨ i.sensors.bumps_wheelDrops.wheeldropLeft = true
        ∨ i.sensors.bumps_wheelDrops.wheeldropRight = true
        ∨ i.sensors.cliffLeft = true ∨ i.sensors.cliffFrontLeft = true
        ∨ i.sensors.cliffFrontRight = true ∨ i.sensors.cliffRight = true))
    (hang : |i.netAngle - c.angleAtManeuverStart| ≤ Reactive.reorientTolerance) :
    Reactive.reorientTolerance = 2
    ∧ (Reactive.step c i).1.state = .DRIVE
    ∧ (Reactive.step c i).2 = { leftWheelSpeed := 200, rightWheelSpeed := 200 }
    ∧ (Reactive.step c i).2
        = { leftWheelSpeed := Reactive.driveSpeed, rightWheelSpeed := Reactive.driveSpeed } := by
  obtain ⟨s, u, d, x, a⟩ := c
  simp only at hs hang
  subst hs
  have hno2 : ¬ Reactive.obstacleEncountered i.sensors := by
    unfold Reactive.obstacleEncountered; exact hno
  have htol : Reactive.reorientTolerance = 2 := rfl
  rw [htol] at hang
  have hb := abs_le.mp hang
  have habs := abs32_sub32_eq i.netAngle a (by omega) (by omega)
  have hle : abs32 (sub32 i.netAngle a) ≤ Reactive.reorientTolerance := by
    rw [habs, htol]; exact hang
  have hstate : (Reactive.step ⟨.REORIENT, u, d, x, a⟩ i).1
      = ⟨.DRIVE, u, d, x, a⟩ := by
    simp [Reactive.step, Reactive.irobotNavigationStatechart, Reactive.stateTransition,
      hno2, hp, hle]
  have hout : (Reactive.step ⟨.REORIENT, u, d, x, a⟩ i).2
      = Reactive.stateActions i.netAngle (Reactive.step ⟨.REORIENT, u, d, x, a⟩ i).1 := rfl
  refine ⟨rfl, ?_, ?_, ?_⟩
  · rw [hstate]
  · rw [hout, hstate]; rfl
  · rw [hout, hstate]; rfl

/-- Witness of the amended C10: REORIENT with the starting angle 90, no flag
asserted and net angle 92 returns to DRIVE at (200, 200). -/
theorem reorient_to_drive_witness :
    (Reactive.step { Reactive.initialContext with
          state := .REORIENT, angleAtManeuverStart := 90 }
        (odometryInputs 300 92 zeroSensors)).1.state = .DRIVE
    ∧ (Reactive.step { Reactive.initialContext with
          state := .REORIENT, angleAtManeuverStart := 90 }
        (odometryInputs 300 92 zeroSensors)).2
      = { leftWheelSpeed := 200, rightWheelSpeed := 200 } :=
  ⟨(reorient_to_drive
      { Reactive.initialContext with state := .REORIENT, angleAtManeuverStart := 90 }
      (odometryInputs 300 92 zeroSensors) rfl rfl (by decide) (by decide)).2.1,
   (reorient_to_drive
      { Reactive.initialContext with state := .REORIENT, angleAtManeuverStart := 90 }
      (odometryInputs 300 92 zeroSensors) rfl rfl (by decide) (by decide)).2.2.1⟩

/-- C11, as stated, fails: in AVOID with `obstacleDirection = LEFT`, a call with
only cliffRight asserted stays in AVOID and sets `obstacleDirection` to RIGHT. -/
theorem avoid_relatches_direction :
    ({ Reactive.initialContext with state := .AVOID } : Reactive.NavigationContext).state
        = .AVOID
    ∧ ({ Reactive.initialContext with state := .AVOID }
          : Reactive.NavigationContext).obstacleDirection = .LEFT
    ∧ (Reactive.step { Reactive.initialContext with state := .AVOID }
          (odometryInputs 0 0 cliffRightSensors)).1.state = .AVOID
    ∧ (Reactive.step { Reactive.initialContext with state := .AVOID }
          (odometryInputs 0 0 cliffRightSensors)).1.obstacleDirection = .RIGHT
    ∧ (Reactive.step { Reactive.initialContext with state := .AVOID }
          (odometryInputs 0 0 cliffRightSensors)).1.obstacleDirection
        ≠ ({ Reactive.initialContext with state := .AVOID }
          : Reactive.NavigationContext).obstacleDirection := by
  decide

/-- C11, amended: reactive statechart.  For every call whose state before and
after is AVOID, `obstacleDirection` is unchanged when no obstacle flag is
asserted, and is set again from the flags (LEFT when one of bumpLeft,
wheeldropLeft, cliffLeft, cliffFrontLeft is asserted, RIGHT otherwise) when
one is asserted.  `obstacleDirection` can change only on a call made in a
run-region state with the pause button not pressed and an obstacle flag
asserted. -/
theorem obstacleDirection_set_on_obstacle (c : Reactive.NavigationContext) (i : Inputs) :
    (c.state = .AVOID → (Reactive.step c i).1.state = .AVOID →
      (¬ (i.sensors.bumps_wheelDrops.bumpLeft = true
            ∨ i.sensors.bumps_wheelDrops.bumpRight = true
            ∨ i.sensors.bumps_wheelDrops.wheeldropLeft = true
            ∨ i.sensors.bumps_wheelDrops.wheeldropRight = true
            ∨ i.sensors.cliffLeft = true ∨ i.sensors.cliffFrontLeft = true
            ∨ i.sensors.cliffFrontRight = true ∨ i.sensors.cliffRight = true) →
        (Reactive.step c i).1.obstacleDirection = c.obstacleDirection)
      ∧ ((i.sensors.bumps_wheelDrops.bumpLeft = true
            ∨ i.sensors.bumps_wheelDrops.bumpRight = true
            ∨ i.sensors.bumps_wheelDrops.wheeldropLeft = true
            ∨ i.sensors.bumps_wheelDrops.wheeldropRight = true
            ∨ i.sensors.cliffLeft = true ∨ i.sensors.cliffFrontLeft = true
            ∨ i.sensors.cliffFrontRight = true ∨ i.sensors.cliffRight = true) →
        (Reactive.step c i).1.obstacleDirection
          = if i.sensors.bumps_wheelDrops.bumpLeft = true
                ∨ i.sensors.bumps_wheelDrops.wheeldropLeft = true
                ∨ i.sensors.cliffLeft = true ∨ i.sensors.cliffFrontLeft = true
            then .LEFT else .RIGHT))
    ∧ ((Reactive.step c i).1.obstacleDirection ≠ c.obstacleDirection →
        Reactive.isRunState c.state ∧ i.sensors.buttons.play = false
        ∧ (i.sensors.bumps_wheelDrops.bumpLeft = true
            ∨ i.sensors.bumps_wheelDrops.bumpRight = true
            ∨ i.sensors.bumps_wheelDrops.wheeldropLeft = true
            ∨ i.sensors.bumps_wheelDrops.wheeldropRight = true
            ∨ i.sensors.cliffLeft = true ∨ i.sensors.cliffFrontLeft = true
            ∨ i.sensors.cliffFrontRight = true ∨ i.sensors.cliffRight = true)) := by
  obtain ⟨s, u, d, x, a⟩ := c
  by_cases hp : i.sensors.buttons.play = true
  · refine ⟨?_, ?_⟩
    · intro hs hs2
      simp only at hs
      subst hs
      simp [Reactive.step, Reactive.irobotNavigationStatechart, Reactive.stateTransition,
        Reactive.pauseRegion, hp] at hs2
    · intro hne
      exfalso
      apply hne
      cases s <;>
        simp [Reactive.step, Reactive.irobotNavigationStatechart, Reactive.stateTransition,
          Reactive.pauseRegion, hp]
  · have hp2 : i.sensors.buttons.play = false := by simpa using hp
    by_cases hob : Reactive.obstacleEncountered i.sensors
    · have hob2 := hob
      unfold Reactive.obstacleEncountered at hob2
      refine ⟨?_, ?_⟩
      · intro hs _
        simp only at hs
        subst hs
        refine ⟨fun hno => absurd hob2 hno, fun _ => ?_⟩
        simp only [Reactive.step, Reactive.irobotNavigationStatechart,
          Reactive.stateTransition, Reactive.obstacleRegion, Reactive.obstacleOnLeft]
        simp only [hob, hp]
        simp
        split_ifs <;> rfl
      · intro hne
        refine ⟨?_, hp2, hob2⟩
        by_contra hrun
        apply hne
        cases s <;> simp [Reactive.isRunState] at hrun <;>
          simp [Reactive.step, Reactive.irobotNavigationStatechart, Reactive.stateTransition,
            Reactive.pauseRegion, hp2]
    · have hob2 := hob
      unfold Reactive.obstacleEncountered at hob2
      have hkeep : (Reactive.step ⟨s, u, d, x, a⟩ i).1.obstacleDirection = d := by
        cases s <;>
          simp [Reactive.step, Reactive.irobotNavigationStatechart, Reactive.stateTransition,
            Reactive.pauseRegion, hp2, hob] <;>
          (try split_ifs) <;> rfl
      refine ⟨?_, ?_⟩
      · intro _ _
        exact ⟨fun _ => hkeep, fun h => absurd h hob2⟩
      · intro hne
        exact absurd hkeep hne

/-- Witness of the amended C11: in AVOID with direction RIGHT, a call with no
flag asserted keeps RIGHT and a call with only bumpLeft asserted stays in AVOID
and sets LEFT. -/
theorem obstacleDirection_set_on_obstacle_witness :
    (Reactive.step { Reactive.initialContext with state := .AVOID, obstacleDirection := .RIGHT }
        (odometryInputs 10 0 zeroSensors)).1.obstacleDirection = .RIGHT
    ∧ (Reactive.step { Reactive.initialContext with state := .AVOID, obstacleDirection := .RIGHT }
        (odometryInputs 10 0 bumpLeftSensors)).1.obstacleDirection = .LEFT :=
  ⟨((obstacleDirection_set_on_obstacle
        { Reactive.initialContext with state := .AVOID, obstacleDirection := .RIGHT }
        (odometryInputs 10 0 zeroSensors)).1 rfl (by decide)).1 (by decide),
   ((obstacleDirection_set_on_obstacle
        { Reactive.initialContext with state := .AVOID, obstacleDirection := .RIGHT }
        (odometryInputs 10 0 bumpLeftSensors)).1 rfl (by decide)).2 (by decide)⟩

/-- C12: reactive statechart, from AVOID with the pause button not pressed.
With an obstacle flag asserted the call keeps AVOID, sets
`distanceAtManeuverStart` to `netDistance` and leaves `angleAtManeuverStart`
unchanged.  With no obstacle flag asserted both snapshots are unchanged, and
when moreover the distance threshold is not met
(`|netDistance - distanceAtManeuverStart| < 250`) the whole context is. -/
theorem avoid_resnapshots_distance (c : Reactive.NavigationContext) (i : Inputs)
    (hs : c.state = .AVOID) (hp : i.sensors.buttons.play = false) :
    ((i.sensors.bumps_wheelDrops.bumpLeft = true
          ∨ i.sensors.bumps_wheelDrops.bumpRight = true
          ∨ i.sensors.bumps_wheelDrops.wheeldropLeft = true
          ∨ i.sensors.bumps_wheelDrops.wheeldropRight = true
          ∨ i.sensors.cliffLeft = true ∨ i.sensors.cliffFrontLeft = true
          ∨ i.sensors.cliffFrontRight = true ∨ i.sensors.cliffRight = true) →
        (Reactive.step c i).1.state = .AVOID
        ∧ (Reactive.step c i).1.distanceAtManeuverStart = i.netDistance
        ∧ (Reactive.step c i).1.angleAtManeuverStart = c.angleAtManeuverStart)
    ∧ (¬ (i.sensors.bumps_wheelDrops.bumpLeft = true
          ∨ i.sensors.bumps_wheelDrops.bumpRight = true
          ∨ i.sensors.bumps_wheelDrops.wheeldropLeft = true
          ∨ i.sensors.bumps_wheelDrops.wheeldropRight = true
          ∨ i.sensors.cliffLeft = true ∨ i.sensors.cliffFrontLeft = true
          ∨ i.sensors.cliffFrontRight = true ∨ i.sensors.cliffRight = true) →
        ((Reactive.step c i).1.distanceAtManeuverStart = c.distanceAtManeuverStart
          ∧ (Reactive.step c i).1.angleAtManeuverStart = c.angleAtManeuverStart)
        ∧ (|i.netDistance - c.distanceAtManeuverStart| < 250 → (Reactive.step c i).1 = c)) := by
  obtain ⟨s, u, d, x, a⟩ := c
  simp only at hs
  subst hs
  refine ⟨?_, ?_⟩
  · intro hob
    have hob2 : Reactive.obstacleEncountered i.sensors := by
      unfold Reactive.obstacleEncountered; exact hob
    simp [Reactive.step, Reactive.irobotNavigationStatechart, Reactive.stateTransition,
      Reactive.obstacleRegion, hob2, hp]
    split_ifs <;> simp
  · intro hno
    have hno2 : ¬ Reactive.obstacleEncountered i.sensors := by
      unfold Reactive.obstacleEncountered; exact hno
    refine ⟨?_, ?_⟩
    · simp [Reactive.step, Reactive.irobotNavigationStatechart, Reactive.stateTransition,
        hno2, hp]
      split_ifs <;> simp
    · intro hlt
      simp only at hlt
      have hb := abs_lt.mp hlt
      have habs := abs32_sub32_eq i.netDistance x (by omega) (by omega)
      have hnot : ¬ abs32 (sub32 i.netDistance x) ≥ Reactive.avoidDistance := by
        rw [habs]
        have hav : Reactive.avoidDistance = 250 := rfl
        rw [hav]
        exact not_le.mpr hlt
      simp [Reactive.step, Reactive.irobotNavigationStatechart, Reactive.stateTransition,
        hno2, hp, hnot]

/-- Witness of C12: AVOID with snapshots (1000, 30); a call at odometry
(1700, 45) with both bumps asserted moves only the distance snapshot, and a
call at (1100, 45) with no flag changes nothing. -/
theorem avoid_resnapshots_distance_witness :
    ((Reactive.step { Reactive.initialContext with
          state := .AVOID, distanceAtManeuverStart := 1000, angleAtManeuverStart := 30 }
        (odometryInputs 1700 45 bothBumpsSensors)).1.state = .AVOID
      ∧ (Reactive.step { Reactive.initialContext with
          state := .AVOID, distanceAtManeuverStart := 1000, angleAtManeuverStart := 30 }
        (odometryInputs 1700 45 bothBumpsSensors)).1.distanceAtManeuverStart = 1700
      ∧ (Reactive.step { Reactive.initialContext with
          state := .AVOID, distanceAtManeuverStart := 1000, angleAtManeuverStart := 30 }
        (odometryInputs 1700 45 bothBumpsSensors)).1.angleAtManeuverStart = 30)
    ∧ (Reactive.step { Reactive.initialContext with
          state := .AVOID, distanceAtManeuverStart := 1000, angleAtManeuverStart := 30 }
        (odometryInputs 1100 45 zeroSensors)).1
      = { Reactive.initialContext with
          state := .AVOID, distanceAtManeuverStart := 1000, angleAtManeuverStart := 30 } :=
  ⟨(avoid_resnapshots_distance
      { Reactive.initialContext with
          state := .AVOID, distanceAtManeuverStart := 1000, angleAtManeuverStart := 30 }
      (odometryInputs 1700 45 bothBumpsSensors) rfl rfl).1 (by decide),
   ((avoid_resnapshots_distance
      { Reactive.initialContext with
          state := .AVOID, distanceAtManeuverStart := 1000, angleAtManeuverStart := 30 }
      (odometryInputs 1100 45 zeroSensors) rfl rfl).2 (by decide)).2 (by decide)⟩

/-- C13, as stated, fails: in AVOID with `obstacleDirection = LEFT` the left
wheel (the obstacle's side) is commanded -200 and the right wheel (the far side)
-12; the right wheel is not commanded -200. -/
theorem avoid_far_wheel_is_slow :
    (Reactive.step { Reactive.initialContext with state := .AVOID }
        (odometryInputs 0 0 zeroSensors)).1.state = .AVOID
    ∧ (Reactive.step { Reactive.initialContext with state := .AVOID }
        (odometryInputs 0 0 zeroSensors)).1.obstacleDirection = .LEFT
    ∧ (Reactive.step { Reactive.initialContext with state := .AVOID }
        (odometryInputs 0 0 zeroSensors)).2
      = { leftWheelSpeed := -200, rightWheelSpeed := -12 }
    ∧ (Reactive.step { Reactive.initialContext with state := .AVOID }
        (odometryInputs 0 0 zeroSensors)).2.rightWheelSpeed ≠ -200
    ∧ (Reactive.step { Reactive.initialContext with state := .AVOID }
        (odometryInputs 0 0 zeroSensors)).2.leftWheelSpeed ≠ -12 := by
  decide

/-- C13, amended: reactive statechart, AVOID action.  Whenever the state after
a call is AVOID, the wheel on the obstacle's side (the left wheel when
`obstacleDirection = LEFT`, the right wheel when it is RIGHT) is commanded
`-driveSpeed = -200` and the wheel on the other side `-(driveSpeed >> 4) = -12`;
both outputs are negative. -/
theorem avoid_action (c : Reactive.NavigationContext) (i : Inputs)
    (h : (Reactive.step c i).1.state = .AVOID) :
    ((Reactive.step c i).1.obstacleDirection = .LEFT →
        (Reactive.step c i).2 = { leftWheelSpeed := -200, rightWheelSpeed := -12 })
    ∧ ((Reactive.step c i).1.obstacleDirection = .RIGHT →
        (Reactive.step c i).2 = { leftWheelSpeed := -12, rightWheelSpeed := -200 })
    ∧ (Reactive.step c i).2.leftWheelSpeed < 0
    ∧ (Reactive.step c i).2.rightWheelSpeed < 0
    ∧ -Reactive.driveSpeed = -200
    ∧ -(Reactive.driveSpeed / 16) = -12 := by
  have hout : (Reactive.step c i).2
      = Reactive.stateActions i.netAngle (Reactive.step c i).1 := rfl
  rw [hout]
  generalize (Reactive.step c i).1 = c1 at h ⊢
  obtain ⟨s, u, d, x, a⟩ := c1
  simp only at h
  subst h
  cases d <;> simp [Reactive.stateActions] <;> decide

/-- Witness of the amended C13: DRIVE hitting the left bump enters AVOID with
direction LEFT and outputs (-200, -12); hitting the right bump gives direction
RIGHT and outputs (-12, -200). -/
theorem avoid_action_witness :
    (Reactive.step { Reactive.initialContext with state := .DRIVE }
        (odometryInputs 0 0 bumpLeftSensors)).2
      = { leftWheelSpeed := -200, rightWheelSpeed := -12 }
    ∧ (Reactive.step { Reactive.initialContext with state := .DRIVE }
        (odometryInputs 0 0 bumpRightSensors)).2
      = { leftWheelSpeed := -12, rightWheelSpeed := -200 } :=
  ⟨(avoid_action { Reactive.initialContext with state := .DRIVE }
      (odometryInputs 0 0 bumpLeftSensors) (by decide)).1 (by decide),
   (avoid_action { Reactive.initialContext with state := .DRIVE }
      (odometryInputs 0 0 bumpRightSensors) (by decide)).2.1 (by decide)⟩

/-- C14: reactive statechart, REORIENT action.  Whenever the state after a call
is REORIENT, `angleAtManeuverStart` is the one before the call, the outputs
satisfy left = -right and are (-75, 75) or (75, -75) (rotation in place at
`reorientSpeed = 75`): (-75, 75) if the `int32_t` difference
`angleAtManeuverStart - netAngle` is positive and (75, -75) otherwise.  When
the subtraction does not overflow, that is: (-75, 75) if
`angleAtManeuverStart - netAngle > 0` and (75, -75) otherwise, the difference 0
included. -/
theorem reorient_action (c : Reactive.NavigationContext) (i : Inputs)
    (h : (Reactive.step c i).1.state = .REORIENT) :
    Reactive.reorientSpeed = 75
    ∧ (Reactive.step c i).1.angleAtManeuverStart = c.angleAtManeuverStart
    ∧ (Reactive.step c i).2.leftWheelSpeed = -(Reactive.step c i).2.rightWheelSpeed
    ∧ ((Reactive.step c i).2 = { leftWheelSpeed := -75, rightWheelSpeed := 75 }
        ∨ (Reactive.step c i).2 = { leftWheelSpeed := 75, rightWheelSpeed := -75 })
    ∧ (sub32 c.angleAtManeuverStart i.netAngle > 0 →
        (Reactive.step c i).2 = { leftWheelSpeed := -75, rightWheelSpeed := 75 })
    ∧ (¬ sub32 c.angleAtManeuverStart i.netAngle > 0 →
        (Reactive.step c i).2 = { leftWheelSpeed := 75, rightWheelSpeed := -75 })
    ∧ (-2147483648 ≤ c.angleAtManeuverStart - i.netAngle →
        c.angleAtManeuverStart - i.netAngle < 2147483648 →
        (c.angleAtManeuverStart - i.netAngle > 0 →
          (Reactive.step c i).2 = { leftWheelSpeed := -75, rightWheelSpeed := 75 })
        ∧ (¬ c.angleAtManeuverStart - i.netAngle > 0 →
          (Reactive.step c i).2 = { leftWheelSpeed := 75, rightWheelSpeed := -75 })
        ∧ (c.angleAtManeuverStart - i.netAngle = 0 →
          (Reactive.step c i).2 = { leftWheelSpeed := 75, rightWheelSpeed := -75 })) := by
  have hangle : (Reactive.step c i).1.angleAtManeuverStart = c.angleAtManeuverStart := by
    obtain ⟨s, u, d, x, a⟩ := c
    revert h
    simp only [Reactive.step, Reactive.irobotNavigationStatechart, Reactive.stateTransition,
      Reactive.obstacleRegion]
    cases s <;> simp [Reactive.pauseRegion] <;> (try split_ifs) <;> simp
  have hout : (Reactive.step c i).2
      = Reactive.stateActions i.netAngle (Reactive.step c i).1 := rfl
  have hl : wrap16 (neg32 Reactive.reorientSpeed) = -75 := by decide
  have hr : wrap16 Reactive.reorientSpeed = 75 := by decide
  have hact : Reactive.stateActions i.netAngle (Reactive.step c i).1
      = if sub32 c.angleAtManeuverStart i.netAngle > 0
        then { leftWheelSpeed := -75, rightWheelSpeed := 75 }
        else { leftWheelSpeed := 75, rightWheelSpeed := -75 } := by
    rw [← hangle]
    generalize (Reactive.step c i).1 = c1 at h ⊢
    obtain ⟨s, u, d, x, a⟩ := c1
    simp only at h
    subst h
    simp only [Reactive.stateActions, hl, hr]
  rw [hout, hact]
  refine ⟨rfl, hangle, ?_, ?_, ?_, ?_, ?_⟩
  · split_ifs <;> simp
  · split_ifs
    · exact Or.inl rfl
    · exact Or.inr rfl
  · intro hpos
    rw [if_pos hpos]
  · intro hnpos
    rw [if_neg hnpos]
  · intro hlo hhi
    have hsub : sub32 c.angleAtManeuverStart i.netAngle = c.angleAtManeuverStart - i.netAngle :=
      wrap32_of_inRange _ hlo hhi
    rw [hsub]
    refine ⟨fun hpos => ?_, fun hnpos => ?_, fun hz => ?_⟩
    · rw [if_pos hpos]
    · rw [if_neg hnpos]
    · rw [if_neg (by omega)]

/-- Witness of C14: staying in REORIENT with starting angle 90 at net angle 30
(difference 60) turns at (-75, 75); entering REORIENT from AVOID at net angle
90 (difference 0) turns at (75, -75). -/
theorem reorient_action_witness :
    (Reactive.step { Reactive.initialContext with state := .REORIENT, angleAtManeuverStart := 90 }
        (odometryInputs 0 30 zeroSensors)).2
      = { leftWheelSpeed := -75, rightWheelSpeed := 75 }
    ∧ (Reactive.step { Reactive.initialContext with state := .AVOID, angleAtManeuverStart := 90 }
        (odometryInputs 300 90 zeroSensors)).2
      = { leftWheelSpeed := 75, rightWheelSpeed := -75 } :=
  ⟨((reorient_action
        { Reactive.initialContext with state := .REORIENT, angleAtManeuverStart := 90 }
        (odometryInputs 0 30 zeroSensors) (by decide)).2.2.2.2.2.2 (by decide) (by decide)).1
      (by decide),
   ((reorient_action
        { Reactive.initialContext with state := .AVOID, angleAtManeuverStart := 90 }
        (odometryInputs 300 90 zeroSensors) (by decide)).2.2.2.2.2.2 (by decide) (by decide)).2.2
      (by decide)⟩

/-! ## Scripted-leg policy -/

/-- C15: scripted statechart, non-terminal legs, with the pause button not
pressed and the wall / left-bump trigger not asserted.  The state changes
exactly when the progress of the leg against the stored snapshot meets its
threshold, and then it is the next leg of the order TURN (angle >= 79) -> DRIVE
(distance >= 800) -> TURN_LEFT (angle >= 88) -> DRIVE2 (distance >= 1500) ->
TURN_LEFT2 (angle >= 89) -> DRIVE3 (distance >= 1000) -> TURN2 (angle >= 50) ->
DRIVE4; below the threshold the state is unchanged, so no leg is skipped in one
call.  The progress is the absolute difference when the subtraction does not
overflow an `int32_t` (first block), and in every case the value of the
`int32_t` computation `abs (current - snapshot)` (second block). -/
theorem scripted_leg_order (c : Scripted.NavigationContext) (i : Inputs)
    (hp : i.sensors.buttons.play = false)
    (htrig : ¬ ((i.sensors.wallSignal ≥ 0 ∧ i.sensors.wall = true)
        ∨ i.sensors.bumps_wheelDrops.bumpLeft = true)) :
    ((c.state = .TURN → -2147483648 < i.netAngle - c.angleAtManeuverStart →
          i.netAngle - c.angleAtManeuverStart < 2147483648 →
          (Scripted.step c i).1.state
            = if |i.netAngle - c.angleAtManeuverStart| ≥ 79 then .DRIVE else .TURN)
      ∧ (c.state = .DRIVE → -2147483648 < i.netDistance - c.distanceAtManeuverStart →
          i.netDistance - c.distanceAtManeuverStart < 2147483648 →
          (Scripted.step c i).1.state
            = if |i.netDistance - c.distanceAtManeuverStart| ≥ 800 then .TURN_LEFT else .DRIVE)
      ∧ (c.state = .TURN_LEFT → -2147483648 < i.netAngle - c.angleAtManeuverStart →
          i.netAngle - c.angleAtManeuverStart < 2147483648 →
          (Scripted.step c i).1.state
            = if |i.netAngle - c.angleAtManeuverStart| ≥ 88 then .DRIVE2 else .TURN_LEFT)
      ∧ (c.state = .DRIVE2 → -2147483648 < i.netDistance - c.distanceAtManeuverStart →
          i.netDistance - c.distanceAtManeuverStart < 2147483648 →
          (Scripted.step c i).1.state
            = if |i.netDistance - c.distanceAtManeuverStart| ≥ 1500 then .TURN_LEFT2 else .DRIVE2)
      ∧ (c.state = .TURN_LEFT2 → -2147483648 < i.netAngle - c.angleAtManeuverStart →
          i.netAngle - c.angleAtManeuverStart < 2147483648 →
          (Scripted.step c i).1.state
            = if |i.netAngle - c.angleAtManeuverStart| ≥ 89 then .DRIVE3 else .TURN_LEFT2)
      ∧ (c.state = .DRIVE3 → -2147483648 < i.netDistance - c.distanceAtManeuverStart →
          i.netDistance - c.distanceAtManeuverStart < 2147483648 →
          (Scripted.step c i).1.state
            = if |i.netDistance - c.distanceAtManeuverStart| ≥ 1000 then .TURN2 else .DRIVE3)
      ∧ (c.state = .TURN2 → -2147483648 < i.netAngle - c.angleAtManeuverStart →
          i.netAngle - c.angleAtManeuverStart < 2147483648 →
          (Scripted.step c i).1.state
            = if |i.netAngle - c.angleAtManeuverStart| ≥ 50 then .DRIVE4 else .TURN2))
    ∧ ((c.state = .TURN →
          (Scripted.step c i).1.state
            = if abs32 (sub32 i.netAngle c.angleAtManeuverStart) ≥ 79 then .DRIVE else .TURN)
      ∧ (c.state = .DRIVE →
          (Scripted.step c i).1.state
            = if abs32 (sub32 i.netDistance c.distanceAtManeuverStart) ≥ 800 then .TURN_LEFT else .DRIVE)
      ∧ (c.state = .TURN_LEFT →
          (Scripted.step c i).1.state
            = if abs32 (sub32 i.netAngle c.angleAtManeuverStart) ≥ 88 then .DRIVE2 else .TURN_LEFT)
      ∧ (c.state = .DRIVE2 →
          (Scripted.step c i).1.state
            = if abs32 (sub32 i.netDistance c.distanceAtManeuverStart) ≥ 1500 then .TURN_LEFT2 else .DRIVE2)
      ∧ (c.state = .TURN_LEFT2 →
          (Scripted.step c i).1.state
            = if abs32 (sub32 i.netAngle c.angleAtManeuverStart) ≥ 89 then .DRIVE3 else .TURN_LEFT2)
      ∧ (c.state = .DRIVE3 →
          (Scripted.step c i).1.state
            = if abs32 (sub32 i.netDistance c.distanceAtManeuverStart) ≥ 1000 then .TURN2 else .DRIVE3)
      ∧ (c.state = .TURN2 →
          (Scripted.step c i).1.state
            = if abs32 (sub32 i.netAngle c.angleAtManeuverStart) ≥ 50 then .DRIVE4 else .TURN2)) := by
  have htrig2 : ¬ Scripted.wallOrBumpLeft i.sensors := by
    unfold Scripted.wallOrBumpLeft; exact htrig
  have hm :
      (c.state = .TURN →
          (Scripted.step c i).1.state
            = if abs32 (sub32 i.netAngle c.angleAtManeuverStart) ≥ 79 then .DRIVE else .TURN)
      ∧ (c.state = .DRIVE →
          (Scripted.step c i).1.state
            = if abs32 (sub32 i.netDistance c.distanceAtManeuverStart) ≥ 800 then .TURN_LEFT else .DRIVE)
      ∧ (c.state = .TURN_LEFT →
          (Scripted.step c i).1.state
            = if abs32 (sub32 i.netAngle c.angleAtManeuverStart) ≥ 88 then .DRIVE2 else .TURN_LEFT)
      ∧ (c.state = .DRIVE2 →
          (Scripted.step c i).1.state
            = if abs32 (sub32 i.netDistance c.distanceAtManeuverStart) ≥ 1500 then .TURN_LEFT2 else .DRIVE2)
      ∧ (c.state = .TURN_LEFT2 →
          (Scripted.step c i).1.state
            = if abs32 (sub32 i.netAngle c.angleAtManeuverStart) ≥ 89 then .DRIVE3 else .TURN_LEFT2)
      ∧ (c.state = .DRIVE3 →
          (Scripted.step c i).1.state
            = if abs32 (sub32 i.netDistance c.distanceAtManeuverStart) ≥ 1000 then .TURN2 else .DRIVE3)
      ∧ (c.state = .TURN2 →
          (Scripted.step c i).1.state
            = if abs32 (sub32 i.netAngle c.angleAtManeuverStart) ≥ 50 then .DRIVE4 else .TURN2) := by
    obtain ⟨s, u, x, a⟩ := c
    refine ⟨?_, ?_, ?_, ?_, ?_, ?_, ?_⟩
    · intro hs
      simp only at hs
      subst hs
      simp only [Scripted.step, Scripted.irobotNavigationStatechart, Scripted.stateTransition]
      simp [hp, htrig2]
      split_ifs <;> rfl
    · intro hs
      simp only at hs
      subst hs
      simp only [Scripted.step, Scripted.irobotNavigationStatechart, Scripted.stateTransition]
      simp [hp, htrig2]
      split_ifs <;> rfl
    · intro hs
      simp only at hs
      subst hs
      simp only [Scripted.step, Scripted.irobotNavigationStatechart, Scripted.stateTransition]
      simp [hp, htrig2]
      split_ifs <;> rfl
    · intro hs
      simp only at hs
      subst hs
      simp only [Scripted.step, Scripted.irobotNavigationStatechart, Scripted.stateTransition]
      simp [hp, htrig2]
      split_ifs <;> rfl
    · intro hs
      simp only at hs
      subst hs
      simp only [Scripted.step, Scripted.irobotNavigationStatechart, Scripted.stateTransition]
      simp [hp, htrig2]
      split_ifs <;> rfl
    · intro hs
      simp only at hs
      subst hs
      simp only [Scripted.step, Scripted.irobotNavigationStatechart, Scripted.stateTransition]
      simp [hp, htrig2]
      split_ifs <;> rfl
    · intro hs
      simp only at hs
      subst hs
      simp only [Scripted.step, Scripted.irobotNavigationStatechart, Scripted.stateTransition]
      simp [hp, htrig2]
      split_ifs <;> rfl
  refine ⟨⟨?_, ?_, ?_, ?_, ?_, ?_, ?_⟩, hm⟩
  · intro hs hlo hhi
    rw [← abs32_sub32_eq i.netAngle c.angleAtManeuverStart hlo hhi]
    exact hm.1 hs
  · intro hs hlo hhi
    rw [← abs32_sub32_eq i.netDistance c.distanceAtManeuverStart hlo hhi]
    exact hm.2.1 hs
  · intro hs hlo hhi
    rw [← abs32_sub32_eq i.netAngle c.angleAtManeuverStart hlo hhi]
    exact hm.2.2.1 hs
  · intro hs hlo hhi
    rw [← abs32_sub32_eq i.netDistance c.distanceAtManeuverStart hlo hhi]
    exact hm.2.2.2.1 hs
  · intro hs hlo hhi
    rw [← abs32_sub32_eq i.netAngle c.angleAtManeuverStart hlo hhi]
    exact hm.2.2.2.2.1 hs
  · intro hs hlo hhi
    rw [← abs32_sub32_eq i.netDistance c.distanceAtManeuverStart hlo hhi]
    exact hm.2.2.2.2.2.1 hs
  · intro hs hlo hhi
    rw [← abs32_sub32_eq i.netAngle c.angleAtManeuverStart hlo hhi]
    exact hm.2.2.2.2.2.2 hs

/-- Witness of C15: with snapshots at 0, each leg advances at exactly its
threshold (TURN at 79, DRIVE at 800, TURN_LEFT at -88, DRIVE2 at 1500,
TURN_LEFT2 at -89, DRIVE3 at 1000, TURN2 at 50), and TURN at 78 stays TURN. -/
theorem scripted_leg_order_witness :
    (Scripted.step { Scripted.initialContext with state := .TURN }
        (odometryInputs 0 79 zeroSensors)).1.state = .DRIVE
    ∧ (Scripted.step { Scripted.initialContext with state := .TURN }
        (odometryInputs 5000 78 zeroSensors)).1.state = .TURN
    ∧ (Scripted.step { Scripted.initialContext with state := .DRIVE }
        (odometryInputs 800 0 zeroSensors)).1.state = .TURN_LEFT
    ∧ (Scripted.step { Scripted.initialContext with state := .TURN_LEFT }
        (odometryInputs 0 (-88) zeroSensors)).1.state = .DRIVE2
    ∧ (Scripted.step { Scripted.initialContext with state := .DRIVE2 }
        (odometryInputs 1500 0 zeroSensors)).1.state = .TURN_LEFT2
    ∧ (Scripted.step { Scripted.initialContext with state := .TURN_LEFT2 }
        (odometryInputs 0 (-89) zeroSensors)).1.state = .DRIVE3
    ∧ (Scripted.step { Scripted.initialContext with state := .DRIVE3 }
        (odometryInputs 1000 0 zeroSensors)).1.state = .TURN2
    ∧ (Scripted.step { Scripted.initialContext with state := .TURN2 }
        (odometryInputs 0 50 zeroSensors)).1.state = .DRIVE4 :=
  ⟨(scripted_leg_order { Scripted.initialContext with state := .TURN }
      (odometryInputs 0 79 zeroSensors) rfl (by decide)).1.1 rfl (by decide) (by decide),
   (scripted_leg_order { Scripted.initialContext with state := .TURN }
      (odometryInputs 5000 78 zeroSensors) rfl (by decide)).1.1 rfl (by decide) (by decide),
   (scripted_leg_order { Scripted.initialContext with state := .DRIVE }
      (odometryInputs 800 0 zeroSensors) rfl (by decide)).1.2.1 rfl (by decide) (by decide),
   (scripted_leg_order { Scripted.initialContext with state := .TURN_LEFT }
      (odometryInputs 0 (-88) zeroSensors) rfl (by decide)).1.2.2.1 rfl (by decide) (by decide),
   (scripted_leg_order { Scripted.initialContext with state := .DRIVE2 }
      (odometryInputs 1500 0 zeroSensors) rfl (by decide)).1.2.2.2.1 rfl (by decide) (by decide),
   (scripted_leg_order { Scripted.initialContext with state := .TURN_LEFT2 }
      (odometryInputs 0 (-89) zeroSensors) rfl (by decide)).1.2.2.2.2.1 rfl (by decide) (by decide),
   (scripted_leg_order { Scripted.initialContext with state := .DRIVE3 }
      (odometryInputs 1000 0 zeroSensors) rfl (by decide)).1.2.2.2.2.2.1 rfl (by decide) (by decide),
   (scripted_leg_order { Scripted.initialContext with state := .TURN2 }
      (odometryInputs 0 50 zeroSensors) rfl (by decide)).1.2.2.2.2.2.2 rfl (by decide) (by decide)⟩

/-- On `int32_t`, `abs (a - a)` is 0. -/
theorem abs32_sub32_self (a : Int) : abs32 (sub32 a a) = 0 := by
  simp [abs32, sub32, wrap32]

/-- C16, as stated, fails: from DRIVE3 with both snapshots at 0, a call at
odometry (1000, 50) fires the transition to TURN2, which keeps the angle
snapshot, and a second call with the same inputs fires again, to DRIVE4. -/
theorem drive3_fires_twice :
    Scripted.isRunState
        ({ Scripted.initialContext with state := .DRIVE3 } : Scripted.NavigationContext).state
    ∧ (odometryInputs 1000 50 zeroSensors).sensors.buttons.play = false
    ∧ ¬ (((odometryInputs 1000 50 zeroSensors).sensors.wallSignal ≥ 0
          ∧ (odometryInputs 1000 50 zeroSensors).sensors.wall = true)
        ∨ (odometryInputs 1000 50 zeroSensors).sensors.bumps_wheelDrops.bumpLeft = true)
    ∧ (Scripted.step { Scripted.initialContext with state := .DRIVE3 }
        (odometryInputs 1000 50 zeroSensors)).1.state = .TURN2
    ∧ (Scripted.step (Scripted.step { Scripted.initialContext with state := .DRIVE3 }
        (odometryInputs 1000 50 zeroSensors)).1 (odometryInputs 1000 50 zeroSensors)).1.state
      = .DRIVE4
    ∧ (Scripted.step (Scripted.step { Scripted.initialContext with state := .DRIVE3 }
        (odometryInputs 1000 50 zeroSensors)).1 (odometryInputs 1000 50 zeroSensors)).1.state
      ≠ (Scripted.step { Scripted.initialContext with state := .DRIVE3 }
        (odometryInputs 1000 50 zeroSensors)).1.state := by
  decide

/-- C16, amended: scripted statechart, pause button not pressed and wall /
left-bump trigger not asserted.  From every run-region leg other than DRIVE3,
if a call fires a leg transition (the state changes), a second call with the
same inputs fires no other: the state after it is the state after the first.
From DRIVE3 the transition to TURN2 keeps `angleAtManeuverStart`, and the
second call stays in TURN2 when `|netAngle - angleAtManeuverStart| < 50` and
advances to DRIVE4 otherwise (difference not overflowing an `int32_t`). -/
theorem scripted_fires_once (c : Scripted.NavigationContext) (i : Inputs)
    (hp : i.sensors.buttons.play = false)
    (htrig : ¬ ((i.sensors.wallSignal ≥ 0 ∧ i.sensors.wall = true)
        ∨ i.sensors.bumps_wheelDrops.bumpLeft = true)) :
    (Scripted.isRunState c.state → c.state ≠ .DRIVE3 →
        (Scripted.step c i).1.state ≠ c.state →
        (Scripted.step (Scripted.step c i).1 i).1.state = (Scripted.step c i).1.state)
    ∧ (c.state = .DRIVE3 → (Scripted.step c i).1.state ≠ c.state →
        -2147483648 < i.netAngle - c.angleAtManeuverStart →
        i.netAngle - c.angleAtManeuverStart < 2147483648 →
        (Scripted.step c i).1.state = .TURN2
        ∧ (Scripted.step (Scripted.step c i).1 i).1.state
          = if |i.netAngle - c.angleAtManeuverStart| ≥ 50 then .DRIVE4 else .TURN2) := by
  obtain ⟨s, u, x, a⟩ := c
  have htrig2 : ¬ Scripted.wallOrBumpLeft i.sensors := by
    unfold Scripted.wallOrBumpLeft; exact htrig
  refine ⟨?_, ?_⟩
  · intro hrun hne hfire
    simp only [Scripted.step, Scripted.irobotNavigationStatechart] at hfire ⊢
    cases s <;> simp [Scripted.isRunState] at hrun hne <;>
      simp only [Scripted.stateTransition] at hfire ⊢ <;>
      simp [hp, htrig2] at hfire ⊢ <;>
      split at hfire <;> (try simp at hfire) <;>
      (rename_i hthr; simp [hthr, hp, htrig2, abs32_sub32_self])
  · intro hs hfire hlo hhi
    simp only at hs hlo hhi
    subst hs
    have habs := abs32_sub32_eq i.netAngle a hlo hhi
    simp only [Scripted.step, Scripted.irobotNavigationStatechart] at hfire ⊢
    simp only [Scripted.stateTransition] at hfire ⊢
    simp [hp, htrig2] at hfire ⊢
    split at hfire <;> (try simp at hfire)
    rename_i hthr
    simp [hthr, hp, htrig2, habs]
    split_ifs <;> simp

/-- Witness of the amended C16: TURN at net angle 79 fires to DRIVE and the
second call stays in DRIVE; DRIVE3 at odometry (1000, 10) fires to TURN2 and
the second call stays in TURN2. -/
theorem scripted_fires_once_witness :
    (Scripted.step (Scripted.step { Scripted.initialContext with state := .TURN }
        (odometryInputs 0 79 zeroSensors)).1 (odometryInputs 0 79 zeroSensors)).1.state
      = (Scripted.step { Scripted.initialContext with state := .TURN }
        (odometryInputs 0 79 zeroSensors)).1.state
    ∧ ((Scripted.step { Scripted.initialContext with state := .DRIVE3 }
        (odometryInputs 1000 10 zeroSensors)).1.state = .TURN2
      ∧ (Scripted.step (Scripted.step { Scripted.initialContext with state := .DRIVE3 }
        (odometryInputs 1000 10 zeroSensors)).1 (odometryInputs 1000 10 zeroSensors)).1.state
        = .TURN2) :=
  ⟨(scripted_fires_once { Scripted.initialContext with state := .TURN }
      (odometryInputs 0 79 zeroSensors) rfl (by decide)).1 (by decide) (by decide) (by decide),
   (scripted_fires_once { Scripted.initialContext with state := .DRIVE3 }
      (odometryInputs 1000 10 zeroSensors) rfl (by decide)).2 rfl (by decide) (by decide)
      (by decide)⟩

/-- C17, as stated, fails: the transition DRIVE3 -> TURN2 changes the state and
leaves `angleAtManeuverStart` at 0 although `netAngle` is 50; in DRIVE4 a call
at net distance 9000 leaves the state unchanged and moves
`distanceAtManeuverStart` from 0 to 9000. -/
theorem scripted_snapshots_not_uniform :
    ((odometryInputs 1000 50 zeroSensors).sensors.buttons.play = false
      ∧ (Scripted.step { Scripted.initialContext with state := .DRIVE3 }
          (odometryInputs 1000 50 zeroSensors)).1.state = .TURN2
      ∧ (Scripted.step { Scripted.initialContext with state := .DRIVE3 }
          (odometryInputs 1000 50 zeroSensors)).1.angleAtManeuverStart = 0
      ∧ (Scripted.step { Scripted.initialContext with state := .DRIVE3 }
          (odometryInputs 1000 50 zeroSensors)).1.angleAtManeuverStart
        ≠ (odometryInputs 1000 50 zeroSensors).netAngle)
    ∧ ((odometryInputs 9000 0 zeroSensors).sensors.buttons.play = false
      ∧ (Scripted.step { Scripted.initialContext with state := .DRIVE4 }
          (odometryInputs 9000 0 zeroSensors)).1.state = .DRIVE4
      ∧ (Scripted.step { Scripted.initialContext with state := .DRIVE4 }
          (odometryInputs 9000 0 zeroSensors)).1.distanceAtManeuverStart = 9000
      ∧ (Scripted.step { Scripted.initialContext with state := .DRIVE4 }
          (odometryInputs 9000 0 zeroSensors)).1.distanceAtManeuverStart
        ≠ ({ Scripted.initialContext with state := .DRIVE4 }
            : Scripted.NavigationContext).distanceAtManeuverStart) := by
  decide

/-- C17, amended: scripted statechart, a call in a run-region state with the
pause button not pressed.  With the wall / left-bump trigger asserted the call
sets the state to TURN and both snapshots to the current odometry (also when
the state already is TURN).  Otherwise: from TURN, DRIVE, TURN_LEFT, DRIVE2 and
TURN_LEFT2 a call that changes the state sets both snapshots to `netDistance`
and `netAngle`; from DRIVE3 and TURN2 a call that changes the state sets
`distanceAtManeuverStart` to `netDistance` and keeps `angleAtManeuverStart`;
from these seven legs a call that leaves the state unchanged leaves the whole
context unchanged; in DRIVE4 the state and `angleAtManeuverStart` never change
and `distanceAtManeuverStart` is kept or set to `netDistance`. -/
theorem scripted_snapshot_discipline (c : Scripted.NavigationContext) (i : Inputs)
    (hrun : Scripted.isRunState c.state) (hp : i.sensors.buttons.play = false) :
    (((i.sensors.wallSignal ≥ 0 ∧ i.sensors.wall = true)
          ∨ i.sensors.bumps_wheelDrops.bumpLeft = true) →
        (Scripted.step c i).1.state = .TURN
        ∧ (Scripted.step c i).1.distanceAtManeuverStart = i.netDistance
        ∧ (Scripted.step c i).1.angleAtManeuverStart = i.netAngle)
    ∧ (¬ ((i.sensors.wallSignal ≥ 0 ∧ i.sensors.wall = true)
          ∨ i.sensors.bumps_wheelDrops.bumpLeft = true) →
        ((c.state = .TURN ∨ c.state = .DRIVE ∨ c.state = .TURN_LEFT ∨ c.state = .DRIVE2
            ∨ c.state = .TURN_LEFT2) →
          ((Scripted.step c i).1.state ≠ c.state →
            (Scripted.step c i).1.distanceAtManeuverStart = i.netDistance
            ∧ (Scripted.step c i).1.angleAtManeuverStart = i.netAngle)
          ∧ ((Scripted.step c i).1.state = c.state → (Scripted.step c i).1 = c))
        ∧ ((c.state = .DRIVE3 ∨ c.state = .TURN2) →
          ((Scripted.step c i).1.state ≠ c.state →
            (Scripted.step c i).1.distanceAtManeuverStart = i.netDistance
            ∧ (Scripted.step c i).1.angleAtManeuverStart = c.angleAtManeuverStart)
          ∧ ((Scripted.step c i).1.state = c.state → (Scripted.step c i).1 = c))
        ∧ (c.state = .DRIVE4 →
          (Scripted.step c i).1.state = .DRIVE4
          ∧ (Scripted.step c i).1.angleAtManeuverStart = c.angleAtManeuverStart
          ∧ ((Scripted.step c i).1.distanceAtManeuverStart = c.distanceAtManeuverStart
            ∨ (Scripted.step c i).1.distanceAtManeuverStart = i.netDistance))) := by
  obtain ⟨s, u, x, a⟩ := c
  refine ⟨?_, ?_⟩
  · intro htrig
    have htrig2 : Scripted.wallOrBumpLeft i.sensors := by
      unfold Scripted.wallOrBumpLeft; exact htrig
    cases s <;> simp [Scripted.isRunState] at hrun <;>
      simp [Scripted.step, Scripted.irobotNavigationStatechart, Scripted.stateTransition,
        hp, htrig2]
  · intro htrig
    have htrig2 : ¬ Scripted.wallOrBumpLeft i.sensors := by
      unfold Scripted.wallOrBumpLeft; exact htrig
    refine ⟨?_, ?_, ?_⟩
    · intro hs
      simp only at hs
      rcases hs with hs | hs | hs | hs | hs <;> subst hs <;>
        simp only [Scripted.step, Scripted.irobotNavigationStatechart,
          Scripted.stateTransition] <;>
        simp [hp, htrig2] <;> split_ifs <;> (try simp) <;> (try omega)
    · intro hs
      simp only at hs
      rcases hs with hs | hs <;> subst hs <;>
        simp only [Scripted.step, Scripted.irobotNavigationStatechart,
          Scripted.stateTransition] <;>
        simp [hp, htrig2] <;> split_ifs <;> (try simp) <;> (try omega)
    · intro hs
      simp only at hs
      subst hs
      simp only [Scripted.step, Scripted.irobotNavigationStatechart,
        Scripted.stateTransition]
      simp [hp, htrig2]
      split_ifs <;> simp

/-- Witness of the amended C17: TURN with the wall flag asserted resets both
snapshots and stays TURN; DRIVE at net distance 800 changes the state and sets
both snapshots; DRIVE3 at odometry (1000, 50) changes the state, sets the
distance snapshot and keeps the angle snapshot; DRIVE4 keeps state and angle. -/
theorem scripted_snapshot_discipline_witness :
    ((Scripted.step { Scripted.initialContext with state := .TURN }
          (odometryInputs 40 7 wallSensors)).1.state = .TURN
      ∧ (Scripted.step { Scripted.initialContext with state := .TURN }
          (odometryInputs 40 7 wallSensors)).1.distanceAtManeuverStart = 40
      ∧ (Scripted.step { Scripted.initialContext with state := .TURN }
          (odometryInputs 40 7 wallSensors)).1.angleAtManeuverStart = 7)
    ∧ ((Scripted.step { Scripted.initialContext with state := .DRIVE }
          (odometryInputs 800 3 zeroSensors)).1.distanceAtManeuverStart = 800
      ∧ (Scripted.step { Scripted.initialContext with state := .DRIVE }
          (odometryInputs 800 3 zeroSensors)).1.angleAtManeuverStart = 3)
    ∧ ((Scripted.step { Scripted.initialContext with state := .DRIVE3 }
          (odometryInputs 1000 50 zeroSensors)).1.distanceAtManeuverStart = 1000
      ∧ (Scripted.step { Scripted.initialContext with state := .DRIVE3 }
          (odometryInputs 1000 50 zeroSensors)).1.angleAtManeuverStart = 0)
    ∧ ((Scripted.step { Scripted.initialContext with state := .DRIVE4 }
          (odometryInputs 9000 50 zeroSensors)).1.state = .DRIVE4
      ∧ (Scripted.step { Scripted.initialContext with state := .DRIVE4 }
          (odometryInputs 9000 50 zeroSensors)).1.angleAtManeuverStart = 0) :=
  ⟨(scripted_snapshot_discipline { Scripted.initialContext with state := .TURN }
      (odometryInputs 40 7 wallSensors) (by decide) rfl).1 (by decide),
   ((scripted_snapshot_discipline { Scripted.initialContext with state := .DRIVE }
      (odometryInputs 800 3 zeroSensors) (by decide) rfl).2 (by decide)).1 (by decide)
      |>.1 (by decide),
   ((scripted_snapshot_discipline { Scripted.initialContext with state := .DRIVE3 }
      (odometryInputs 1000 50 zeroSensors) (by decide) rfl).2 (by decide)).2.1 (by decide)
      |>.1 (by decide),
   ⟨(((scripted_snapshot_discipline { Scripted.initialContext with state := .DRIVE4 }
      (odometryInputs 9000 50 zeroSensors) (by decide) rfl).2 (by decide)).2.2 rfl).1,
    (((scripted_snapshot_discipline { Scripted.initialContext with state := .DRIVE4 }
      (odometryInputs 9000 50 zeroSensors) (by decide) rfl).2 (by decide)).2.2 rfl).2.1⟩⟩

/-- One call of the scripted statechart in DRIVE4, with the pause button not
pressed and the wall / left-bump trigger not asserted, stays in DRIVE4 and
drives at (200, 200). -/
theorem scripted_step_DRIVE4 (c : Scripted.NavigationContext) (i : Inputs)
    (hs : c.state = .DRIVE4) (hp : i.sensors.buttons.play = false)
    (htrig : ¬ ((i.sensors.wallSignal ≥ 0 ∧ i.sensors.wall = true)
        ∨ i.sensors.bumps_wheelDrops.bumpLeft = true)) :
    (Scripted.step c i).1.state = .DRIVE4
    ∧ (Scripted.step c i).2 = { leftWheelSpeed := 200, rightWheelSpeed := 200 } := by
  obtain ⟨s, u, x, a⟩ := c
  simp only at hs
  subst hs
  have htrig2 : ¬ Scripted.wallOrBumpLeft i.sensors := by
    unfold Scripted.wallOrBumpLeft; exact htrig
  have hstate : (Scripted.step ⟨.DRIVE4, u, x, a⟩ i).1.state = .DRIVE4 := by
    simp only [Scripted.step, Scripted.irobotNavigationStatechart, Scripted.stateTransition]
    simp [hp, htrig2]
    split_ifs <;> rfl
  have hout : (Scripted.step ⟨.DRIVE4, u, x, a⟩ i).2
      = Scripted.stateActions (Scripted.step ⟨.DRIVE4, u, x, a⟩ i).1 := rfl
  refine ⟨hstate, ?_⟩
  rw [hout]
  generalize (Scripted.step ⟨.DRIVE4, u, x, a⟩ i).1 = c1 at hstate ⊢
  obtain ⟨s1, u1, x1, a1⟩ := c1
  simp only at hstate
  subst hstate
  rfl

/-- C18: scripted statechart, terminal leg.  From DRIVE4, for every call with
the pause button not pressed and the wall / left-bump trigger not asserted,
whatever `netDistance` and `netAngle` are, the state after the call is DRIVE4
and the outputs are (200, 200); hence after any sequence of such calls the
machine is still in DRIVE4 and the next such call again drives at (200, 200). -/
theorem drive4_holds_forever (c : Scripted.NavigationContext) (is : List Inputs)
    (hs : c.state = .DRIVE4)
    (hall : ∀ j ∈ is, j.sensors.buttons.play = false
        ∧ ¬ ((j.sensors.wallSignal ≥ 0 ∧ j.sensors.wall = true)
          ∨ j.sensors.bumps_wheelDrops.bumpLeft = true)) :
    (∀ i : Inputs, i.sensors.buttons.play = false →
        ¬ ((i.sensors.wallSignal ≥ 0 ∧ i.sensors.wall = true)
          ∨ i.sensors.bumps_wheelDrops.bumpLeft = true) →
        (Scripted.step c i).1.state = .DRIVE4
        ∧ (Scripted.step c i).2 = { leftWheelSpeed := 200, rightWheelSpeed := 200 })
    ∧ (Scripted.run c is).state = .DRIVE4
    ∧ (∀ i : Inputs, i.sensors.buttons.play = false →
        ¬ ((i.sensors.wallSignal ≥ 0 ∧ i.sensors.wall = true)
          ∨ i.sensors.bumps_wheelDrops.bumpLeft = true) →
        (Scripted.step (Scripted.run c is) i).1.state = .DRIVE4
        ∧ (Scripted.step (Scripted.run c is) i).2
          = { leftWheelSpeed := 200, rightWheelSpeed := 200 }) := by
  have hrun : (Scripted.run c is).state = .DRIVE4 := by
    induction is generalizing c with
    | nil => exact hs
    | cons j rest ih =>
      have hj := hall j (List.mem_cons_self j rest)
      have hstep := (scripted_step_DRIVE4 c j hs hj.1 hj.2).1
      exact ih (Scripted.step c j).1 hstep
        (fun k hk => hall k (List.mem_cons_of_mem j hk))
  exact ⟨fun i hp htrig => scripted_step_DRIVE4 c i hs hp htrig, hrun,
    fun i hp htrig => scripted_step_DRIVE4 (Scripted.run c is) i hrun hp htrig⟩

/-- Witness of C18: from DRIVE4, after calls at odometry (9000, 0) and
(20000, 180) (the second with the right bump asserted) the machine is in
DRIVE4 and a further call drives at (200, 200). -/
theorem drive4_holds_forever_witness :
    (Scripted.run { Scripted.initialContext with state := .DRIVE4 }
        [odometryInputs 9000 0 zeroSensors, odometryInputs 20000 180 bumpRightSensors]).state
      = .DRIVE4
    ∧ (Scripted.step (Scripted.run { Scripted.initialContext with state := .DRIVE4 }
        [odometryInputs 9000 0 zeroSensors, odometryInputs 20000 180 bumpRightSensors])
        (odometryInputs (-70000) 720 zeroSensors)).2
      = { leftWheelSpeed := 200, rightWheelSpeed := 200 } :=
  ⟨(drive4_holds_forever { Scripted.initialContext with state := .DRIVE4 }
      [odometryInputs 9000 0 zeroSensors, odometryInputs 20000 180 bumpRightSensors]
      rfl (by decide)).2.1,
   ((drive4_holds_forever { Scripted.initialContext with state := .DRIVE4 }
      [odometryInputs 9000 0 zeroSensors, odometryInputs 20000 180 bumpRightSensors]
      rfl (by decide)).2.2 (odometryInputs (-70000) 720 zeroSensors) rfl (by decide)).2⟩

/-- C19, as stated, fails: in DRIVE with only the right bump asserted (pause
button not pressed, wall flag clear) the call stays in DRIVE and drives at
(200, 200); it does not restart the script at TURN. -/
theorem bumpRight_does_not_restart :
    Scripted.isRunState
        ({ Scripted.initialContext with state := .DRIVE } : Scripted.NavigationContext).state
    ∧ (odometryInputs 0 0 bumpRightSensors).sensors.buttons.play = false
    ∧ (odometryInputs 0 0 bumpRightSensors).sensors.bumps_wheelDrops.bumpRight = true
    ∧ (Scripted.step { Scripted.initialContext with state := .DRIVE }
        (odometryInputs 0 0 bumpRightSensors)).1.state = .DRIVE
    ∧ (Scripted.step { Scripted.initialContext with state := .DRIVE }
        (odometryInputs 0 0 bumpRightSensors)).1.state ≠ .TURN
    ∧ (Scripted.step { Scripted.initialContext with state := .DRIVE }
        (odometryInputs 0 0 bumpRightSensors)).2
      = { leftWheelSpeed := 200, rightWheelSpeed := 200 } := by
  decide

/-- C19, amended: scripted statechart, from any run-region state with the pause
button not pressed.  If the wall flag is set (with `wallSignal >= 0`, as the
code tests) or the left bump is asserted, the call restarts the script at its
first leg: the state is TURN, `distanceAtManeuverStart = netDistance`,
`angleAtManeuverStart = netAngle` and nothing else changes, and the outputs are
(100, -100), whatever the odometry and the threshold of the current leg. -/
theorem scripted_trigger_restarts (c : Scripted.NavigationContext) (i : Inputs)
    (hrun : Scripted.isRunState c.state) (hp : i.sensors.buttons.play = false)
    (htrig : (i.sensors.wallSignal ≥ 0 ∧ i.sensors.wall = true)
        ∨ i.sensors.bumps_wheelDrops.bumpLeft = true) :
    (Scripted.step c i).1
      = { c with state := .TURN, distanceAtManeuverStart := i.netDistance,
                 angleAtManeuverStart := i.netAngle }
    ∧ (Scripted.step c i).2 = { leftWheelSpeed := 100, rightWheelSpeed := -100 } := by
  obtain ⟨s, u, x, a⟩ := c
  have htrig2 : Scripted.wallOrBumpLeft i.sensors := by
    unfold Scripted.wallOrBumpLeft; exact htrig
  have hctx : (Scripted.step ⟨s, u, x, a⟩ i).1 = ⟨.TURN, u, i.netDistance, i.netAngle⟩ := by
    cases s <;> simp [Scripted.isRunState] at hrun <;>
      simp [Scripted.step, Scripted.irobotNavigationStatechart, Scripted.stateTransition,
        hp, htrig2]
  have hout : (Scripted.step ⟨s, u, x, a⟩ i).2
      = Scripted.stateActions (Scripted.step ⟨s, u, x, a⟩ i).1 := rfl
  refine ⟨hctx, ?_⟩
  rw [hout, hctx]
  rfl

/-- Witness of the amended C19: DRIVE2 with the distance threshold met (2000 mm)
and the wall flag set restarts at TURN; DRIVE with the left bump does too. -/
theorem scripted_trigger_restarts_witness :
    ((Scripted.step { Scripted.initialContext with state := .DRIVE2 }
          (odometryInputs 2000 15 wallSensors)).1
        = { Scripted.initialContext with
            state := .TURN, distanceAtManeuverStart := 2000, angleAtManeuverStart := 15 }
      ∧ (Scripted.step { Scripted.initialContext with state := .DRIVE2 }
          (odometryInputs 2000 15 wallSensors)).2
        = { leftWheelSpeed := 100, rightWheelSpeed := -100 })
    ∧ (Scripted.step { Scripted.initialContext with state := .DRIVE }
          (odometryInputs 0 0 bumpLeftSensors)).1.state = .TURN :=
  ⟨scripted_trigger_restarts { Scripted.initialContext with state := .DRIVE2 }
      (odometryInputs 2000 15 wallSensors) (by decide) rfl (by decide),
   congrArg Scripted.NavigationContext.state
     (scripted_trigger_restarts { Scripted.initialContext with state := .DRIVE }
       (odometryInputs 0 0 bumpLeftSensors) (by decide) rfl (by decide)).1⟩

/-! ## Stutter -/

/-- A threshold below `2^31` that the absolute difference stays under is not
met by the `int32_t` computation `abs (a - b)` either. -/
theorem abs32_sub32_not_ge (a b t : Int) (ht : t ≤ 2147483648) (h : |a - b| < t) :
    ¬ abs32 (sub32 a b) ≥ t := by
  have hb := abs_lt.mp h
  have habs := abs32_sub32_eq a b (by omega) (by omega)
  rw [habs]
  exact not_le.mpr h

/-- When a call of the reactive statechart returns the context it was given,
so does any number of repeated calls with the same inputs. -/
theorem reactive_run_replicate_fixed (c : Reactive.NavigationContext) (i : Inputs)
    (h : (Reactive.step c i).1 = c) (n : Nat) :
    Reactive.run c (List.replicate n i) = c := by
  induction n with
  | zero => rfl
  | succ k ih =>
    simp only [List.replicate_succ, Reactive.run, List.foldl_cons, h]
    exact ih

/-- When a call of the scripted statechart returns the context it was given,
so does any number of repeated calls with the same inputs. -/
theorem scripted_run_replicate_fixed (c : Scripted.NavigationContext) (i : Inputs)
    (h : (Scripted.step c i).1 = c) (n : Nat) :
    Scripted.run c (List.replicate n i) = c := by
  induction n with
  | zero => rfl
  | succ k ih =>
    simp only [List.replicate_succ, Scripted.run, List.foldl_cons, h]
    exact ih

/-- C20: stutter, in both statecharts.  When no transition guard holds (a
waiting pause state whose button condition is not met; or a run-region state
with the pause button not pressed, no obstacle flag / wall or left-bump trigger
asserted and the threshold condition of the current state not met) the call
returns the context unchanged in every field, and any number of repeated calls
with the same inputs return the same context and the same wheel speeds.  The
condition of REORIENT, `|netAngle - angleAtManeuverStart| <= 2`, counts as not
met when the `int32_t` computation exceeds 2, or when the absolute difference
does and the subtraction does not overflow an `int32_t`. -/
theorem stutter_without_guard :
    (∀ (c : Reactive.NavigationContext) (i : Inputs),
        ((c.state = .PAUSE_WAIT_BUTTON_RELEASE ∧ i.sensors.buttons.play = true)
          ∨ (c.state = .UNPAUSE_WAIT_BUTTON_PRESS ∧ i.sensors.buttons.play = false)
          ∨ (c.state = .UNPAUSE_WAIT_BUTTON_RELEASE ∧ i.sensors.buttons.play = true)
          ∨ (i.sensors.buttons.play = false
            ∧ ¬ (i.sensors.bumps_wheelDrops.bumpLeft = true
                ∨ i.sensors.bumps_wheelDrops.bumpRight = true
                ∨ i.sensors.bumps_wheelDrops.wheeldropLeft = true
                ∨ i.sensors.bumps_wheelDrops.wheeldropRight = true
                ∨ i.sensors.cliffLeft = true ∨ i.sensors.cliffFrontLeft = true
                ∨ i.sensors.cliffFrontRight = true ∨ i.sensors.cliffRight = true)
            ∧ (c.state = .DRIVE
              ∨ (c.state = .AVOID ∧ |i.netDistance - c.distanceAtManeuverStart| < 250)
              ∨ (c.state = .REORIENT
                ∧ (2 < abs32 (sub32 i.netAngle c.angleAtManeuverStart)
                  ∨ (2 < |i.netAngle - c.angleAtManeuverStart|
                    ∧ -2147483648 < i.netAngle - c.angleAtManeuverStart
                    ∧ i.netAngle - c.angleAtManeuverStart < 2147483648)))))) →
        (Reactive.step c i).1 = c
        ∧ ∀ n : Nat, Reactive.run c (List.replicate n i) = c
            ∧ Reactive.step (Reactive.run c (List.replicate n i)) i = Reactive.step c i)
    ∧ (∀ (c : Scripted.NavigationContext) (i : Inputs),
        ((c.state = .PAUSE_WAIT_BUTTON_RELEASE ∧ i.sensors.buttons.play = true)
          ∨ (c.state = .UNPAUSE_WAIT_BUTTON_PRESS ∧ i.sensors.buttons.play = false)
          ∨ (c.state = .UNPAUSE_WAIT_BUTTON_RELEASE ∧ i.sensors.buttons.play = true)
          ∨ (i.sensors.buttons.play = false
            ∧ ¬ ((i.sensors.wallSignal ≥ 0 ∧ i.sensors.wall = true)
                ∨ i.sensors.bumps_wheelDrops.bumpLeft = true)
            ∧ ((c.state = .TURN ∧ |i.netAngle - c.angleAtManeuverStart| < 79)
              ∨ (c.state = .DRIVE ∧ |i.netDistance - c.distanceAtManeuverStart| < 800)
              ∨ (c.state = .TURN_LEFT ∧ |i.netAngle - c.angleAtManeuverStart| < 88)
              ∨ (c.state = .DRIVE2 ∧ |i.netDistance - c.distanceAtManeuverStart| < 1500)
              ∨ (c.state = .TURN_LEFT2 ∧ |i.netAngle - c.angleAtManeuverStart| < 89)
              ∨ (c.state = .DRIVE3 ∧ |i.netDistance - c.distanceAtManeuverStart| < 1000)
              ∨ (c.state = .TURN2 ∧ |i.netAngle - c.angleAtManeuverStart| < 50)
              ∨ (c.state = .DRIVE4
                ∧ |i.netDistance - c.distanceAtManeuverStart| < 9000)))) →
        (Scripted.step c i).1 = c
        ∧ ∀ n : Nat, Scripted.run c (List.replicate n i) = c
            ∧ Scripted.step (Scripted.run c (List.replicate n i)) i = Scripted.step c i) := by
  constructor
  · intro c i h
    have hfix : (Reactive.step c i).1 = c := by
      obtain ⟨s, u, d, x, a⟩ := c
      simp only at h
      rcases h with ⟨hs, hp⟩ | ⟨hs, hp⟩ | ⟨hs, hp⟩ | ⟨hp, hno, hrun⟩
      · subst hs
        simp [Reactive.step, Reactive.irobotNavigationStatechart, Reactive.stateTransition,
          Reactive.pauseRegion, hp]
      · subst hs
        simp [Reactive.step, Reactive.irobotNavigationStatechart, Reactive.stateTransition,
          Reactive.pauseRegion, hp]
      · subst hs
        simp [Reactive.step, Reactive.irobotNavigationStatechart, Reactive.stateTransition,
          Reactive.pauseRegion, hp]
      · have hno2 : ¬ Reactive.obstacleEncountered i.sensors := by
          unfold Reactive.obstacleEncountered; exact hno
        rcases hrun with hs | ⟨hs, hlt⟩ | ⟨hs, hre⟩
        · subst hs
          simp [Reactive.step, Reactive.irobotNavigationStatechart, Reactive.stateTransition,
            hp, hno2]
        · subst hs
          have hnot : ¬ abs32 (sub32 i.netDistance x) ≥ Reactive.avoidDistance :=
            abs32_sub32_not_ge _ _ _ (by decide) hlt
          simp [Reactive.step, Reactive.irobotNavigationStatechart, Reactive.stateTransition,
            hp, hno2, hnot]
        · subst hs
          have hnot : ¬ abs32 (sub32 i.netAngle a) ≤ Reactive.reorientTolerance := by
            rcases hre with hgt | ⟨hgt, hlo, hhi⟩
            · exact not_le.mpr hgt
            · rw [abs32_sub32_eq i.netAngle a hlo hhi]
              exact not_le.mpr hgt
          simp [Reactive.step, Reactive.irobotNavigationStatechart, Reactive.stateTransition,
            hp, hno2, hnot]
    refine ⟨hfix, fun n => ?_⟩
    have hrep := reactive_run_replicate_fixed c i hfix n
    exact ⟨hrep, by rw [hrep]⟩
  · intro c i h
    have hfix : (Scripted.step c i).1 = c := by
      obtain ⟨s, u, x, a⟩ := c
      simp only at h
      rcases h with ⟨hs, hp⟩ | ⟨hs, hp⟩ | ⟨hs, hp⟩ | ⟨hp, hno, hrun⟩
      · subst hs
        simp [Scripted.step, Scripted.irobotNavigationStatechart, Scripted.stateTransition,
          Scripted.pauseRegion, hp]
      · subst hs
        simp [Scripted.step, Scripted.irobotNavigationStatechart, Scripted.stateTransition,
          Scripted.pauseRegion, hp]
      · subst hs
        simp [Scripted.step, Scripted.irobotNavigationStatechart, Scripted.stateTransition,
          Scripted.pauseRegion, hp]
      · have hno2 : ¬ Scripted.wallOrBumpLeft i.sensors := by
          unfold Scripted.wallOrBumpLeft; exact hno
        rcases hrun with ⟨hs, hlt⟩ | ⟨hs, hlt⟩ | ⟨hs, hlt⟩ | ⟨hs, hlt⟩ | ⟨hs, hlt⟩
          | ⟨hs, hlt⟩ | ⟨hs, hlt⟩ | ⟨hs, hlt⟩ <;> subst hs <;>
          have hnot := abs32_sub32_not_ge _ _ _ (by decide) hlt <;>
          simp [Scripted.step, Scripted.irobotNavigationStatechart, Scripted.stateTransition,
            hp, hno2] <;>
          omega
    refine ⟨hfix, fun n => ?_⟩
    have hrep := scripted_run_replicate_fixed c i hfix n
    exact ⟨hrep, by rw [hrep]⟩

/-- Witness of C20: AVOID with the distance snapshot at 1000 and net distance
1249 (reactive), and DRIVE with the snapshot at 0 and net distance 799
(scripted), no flag asserted: one call and three repeated calls return the
context unchanged. -/
theorem stutter_without_guard_witness :
    ((Reactive.step { Reactive.initialContext with
            state := .AVOID, distanceAtManeuverStart := 1000 }
          (odometryInputs 1249 5 zeroSensors)).1
        = { Reactive.initialContext with state := .AVOID, distanceAtManeuverStart := 1000 }
      ∧ Reactive.run { Reactive.initialContext with
            state := .AVOID, distanceAtManeuverStart := 1000 }
          (List.replicate 3 (odometryInputs 1249 5 zeroSensors))
        = { Reactive.initialContext with state := .AVOID, distanceAtManeuverStart := 1000 })
    ∧ ((Scripted.step { Scripted.initialContext with state := .DRIVE }
          (odometryInputs 799 5 zeroSensors)).1
        = { Scripted.initialContext with state := .DRIVE }
      ∧ Scripted.run { Scripted.initialContext with state := .DRIVE }
          (List.replicate 3 (odometryInputs 799 5 zeroSensors))
        = { Scripted.initialContext with state := .DRIVE }) :=
  ⟨⟨(stutter_without_guard.1
        { Reactive.initialContext with state := .AVOID, distanceAtManeuverStart := 1000 }
        (odometryInputs 1249 5 zeroSensors)
        (Or.inr (Or.inr (Or.inr ⟨rfl, by decide, Or.inr (Or.inl ⟨rfl, by decide⟩)⟩)))).1,
     ((stutter_without_guard.1
        { Reactive.initialContext with state := .AVOID, distanceAtManeuverStart := 1000 }
        (odometryInputs 1249 5 zeroSensors)
        (Or.inr (Or.inr (Or.inr ⟨rfl, by decide, Or.inr (Or.inl ⟨rfl, by decide⟩)⟩)))).2 3).1⟩,
   ⟨(stutter_without_guard.2 { Scripted.initialContext with state := .DRIVE }
        (odometryInputs 799 5 zeroSensors)
        (Or.inr (Or.inr (Or.inr ⟨rfl, by decide, Or.inr (Or.inl ⟨rfl, by decide⟩)⟩)))).1,
     ((stutter_without_guard.2 { Scripted.initialContext with state := .DRIVE }
        (odometryInputs 799 5 zeroSensors)
        (Or.inr (Or.inr (Or.inr ⟨rfl, by decide, Or.inr (Or.inl ⟨rfl, by decide⟩)⟩)))).2 3).1⟩⟩

/-! ## Inputs the statecharts do not read -/

/-- C21: non-interference, in both statecharts.  For every context, two calls
that agree on `netDistance`, `netAngle` and the sensor snapshot give the same
next context and the same wheel speeds, whatever the two accelerometer samples
and the two `isSimulator` flags are, the first call out of INITIAL included. -/
theorem accel_and_simulator_ignored :
    (∀ (c : Reactive.NavigationContext) (netDistance netAngle : Int)
        (sensors : irobotSensorGroup6_t) (accel₁ accel₂ : accelerometer_t)
        (isSimulator₁ isSimulator₂ : Bool),
        Reactive.irobotNavigationStatechart netDistance netAngle sensors accel₁ isSimulator₁ c
          = Reactive.irobotNavigationStatechart netDistance netAngle sensors accel₂
              isSimulator₂ c)
    ∧ (∀ (c : Scripted.NavigationContext) (netDistance netAngle : Int)
        (sensors : irobotSensorGroup6_t) (accel₁ accel₂ : accelerometer_t)
        (isSimulator₁ isSimulator₂ : Bool),
        Scripted.irobotNavigationStatechart netDistance netAngle sensors accel₁ isSimulator₁ c
          = Scripted.irobotNavigationStatechart netDistance netAngle sensors accel₂
              isSimulator₂ c)
    ∧ (∀ (c : Reactive.NavigationContext) (i₁ i₂ : Inputs),
        i₁.netDistance = i₂.netDistance → i₁.netAngle = i₂.netAngle →
        i₁.sensors = i₂.sensors → Reactive.step c i₁ = Reactive.step c i₂)
    ∧ (∀ (c : Scripted.NavigationContext) (i₁ i₂ : Inputs),
        i₁.netDistance = i₂.netDistance → i₁.netAngle = i₂.netAngle →
        i₁.sensors = i₂.sensors → Scripted.step c i₁ = Scripted.step c i₂) := by
  have hr : ∀ (c : Reactive.NavigationContext) (netDistance netAngle : Int)
      (sensors : irobotSensorGroup6_t) (accel₁ accel₂ : accelerometer_t)
      (isSimulator₁ isSimulator₂ : Bool),
      Reactive.irobotNavigationStatechart netDistance netAngle sensors accel₁ isSimulator₁ c
        = Reactive.irobotNavigationStatechart netDistance netAngle sensors accel₂
            isSimulator₂ c := by
    intro c nd na sensors a₁ a₂ s₁ s₂
    have ht : Reactive.stateTransition nd na sensors s₁ c
        = Reactive.stateTransition nd na sensors s₂ c := by
      obtain ⟨s, u, d, x, a⟩ := c
      cases s <;> simp [Reactive.stateTransition, Reactive.pauseRegion]
    simp only [Reactive.irobotNavigationStatechart, ht]
  have hs : ∀ (c : Scripted.NavigationContext) (netDistance netAngle : Int)
      (sensors : irobotSensorGroup6_t) (accel₁ accel₂ : accelerometer_t)
      (isSimulator₁ isSimulator₂ : Bool),
      Scripted.irobotNavigationStatechart netDistance netAngle sensors accel₁ isSimulator₁ c
        = Scripted.irobotNavigationStatechart netDistance netAngle sensors accel₂
            isSimulator₂ c := by
    intro c nd na sensors a₁ a₂ s₁ s₂
    have ht : Scripted.stateTransition nd na sensors s₁ c
        = Scripted.stateTransition nd na sensors s₂ c := by
      obtain ⟨s, u, x, a⟩ := c
      cases s <;> simp [Scripted.stateTransition, Scripted.pauseRegion]
    simp only [Scripted.irobotNavigationStatechart, ht]
  refine ⟨hr, hs, ?_, ?_⟩
  · intro c i₁ i₂ hd ha hsens
    simp only [Reactive.step, hd, ha, hsens]
    exact hr c _ _ _ _ _ _ _
  · intro c i₁ i₂ hd ha hsens
    simp only [Scripted.step, hd, ha, hsens]
    exact hs c _ _ _ _ _ _ _

/-- Witness of C21: the first call out of INITIAL, and a call in a run state
with every flag asserted, give the same result on the robot with a level
accelerometer as in the simulator with a tilted one. -/
theorem accel_and_simulator_ignored_witness :
    (Reactive.irobotNavigationStatechart 0 0 zeroSensors zeroAccel false Reactive.initialContext
        = Reactive.irobotNavigationStatechart 0 0 zeroSensors tiltedAccel true
            Reactive.initialContext
      ∧ Scripted.irobotNavigationStatechart 0 0 zeroSensors zeroAccel false
          Scripted.initialContext
        = Scripted.irobotNavigationStatechart 0 0 zeroSensors tiltedAccel true
            Scripted.initialContext)
    ∧ (Reactive.step { Reactive.initialContext with state := .REORIENT } (allFlagsInputs false)
        = Reactive.step { Reactive.initialContext with state := .REORIENT }
            { allFlagsInputs false with accelAxes := tiltedAccel, isSimulator := true }
      ∧ Scripted.step { Scripted.initialContext with state := .DRIVE2 } (allFlagsInputs false)
        = Scripted.step { Scripted.initialContext with state := .DRIVE2 }
            { allFlagsInputs false with accelAxes := tiltedAccel, isSimulator := true }) :=
  ⟨⟨accel_and_simulator_ignored.1 _ _ _ _ _ _ _ _,
    accel_and_simulator_ignored.2.1 _ _ _ _ _ _ _ _⟩,
   ⟨accel_and_simulator_ignored.2.2.1 _ _ _ rfl rfl rfl,
    accel_and_simulator_ignored.2.2.2 _ _ _ rfl rfl rfl⟩⟩

/-! ## Transitions out of REORIENT -/

/-- C23: reactive statechart, every transition out of REORIENT with the pause
button not pressed.  If any of the eight obstacle flags is asserted the next
state is AVOID, with `distanceAtManeuverStart` and `angleAtManeuverStart`
overwritten by the current `netDistance` and `netAngle` (and the direction set
from the flags); otherwise the next state is DRIVE if
`|netAngle - angleAtManeuverStart| <= 2`; otherwise the machine stays in
REORIENT with the context unchanged.  The last two cases are stated on the
`int32_t` computation, and on the absolute difference (for the last case when
the subtraction does not overflow an `int32_t`). -/
theorem reorient_transitions (c : Reactive.NavigationContext) (i : Inputs)
    (hs : c.state = .REORIENT) (hp : i.sensors.buttons.play = false) :
    ((i.sensors.bumps_wheelDrops.bumpLeft = true
          ∨ i.sensors.bumps_wheelDrops.bumpRight = true
          ∨ i.sensors.bumps_wheelDrops.wheeldropLeft = true
          ∨ i.sensors.bumps_wheelDrops.wheeldropRight = true
          ∨ i.sensors.cliffLeft = true ∨ i.sensors.cliffFrontLeft = true
          ∨ i.sensors.cliffFrontRight = true ∨ i.sensors.cliffRight = true) →
        (Reactive.step c i).1
          = { c with
              state := .AVOID
              distanceAtManeuverStart := i.netDistance
              angleAtManeuverStart := i.netAngle
              obstacleDirection :=
                if i.sensors.bumps_wheelDrops.bumpLeft = true
                    ∨ i.sensors.bumps_wheelDrops.wheeldropLeft = true
                    ∨ i.sensors.cliffLeft = true ∨ i.sensors.cliffFrontLeft = true
                then .LEFT else .RIGHT })
    ∧ (¬ (i.sensors.bumps_wheelDrops.bumpLeft = true
          ∨ i.sensors.bumps_wheelDrops.bumpRight = true
          ∨ i.sensors.bumps_wheelDrops.wheeldropLeft = true
          ∨ i.sensors.bumps_wheelDrops.wheeldropRight = true
          ∨ i.sensors.cliffLeft = true ∨ i.sensors.cliffFrontLeft = true
          ∨ i.sensors.cliffFrontRight = true ∨ i.sensors.cliffRight = true) →
        (|i.netAngle - c.angleAtManeuverStart| ≤ 2 →
          (Reactive.step c i).1 = { c with state := .DRIVE })
        ∧ (2 < |i.netAngle - c.angleAtManeuverStart| →
          -2147483648 < i.netAngle - c.angleAtManeuverStart →
          i.netAngle - c.angleAtManeuverStart < 2147483648 →
          (Reactive.step c i).1 = c)
        ∧ (abs32 (sub32 i.netAngle c.angleAtManeuverStart) ≤ 2 →
          (Reactive.step c i).1 = { c with state := .DRIVE })
        ∧ (2 < abs32 (sub32 i.netAngle c.angleAtManeuverStart) →
          (Reactive.step c i).1 = c)) := by
  obtain ⟨s, u, d, x, a⟩ := c
  simp only at hs
  subst hs
  have hp2 : ¬ i.sensors.buttons.play = true := by simp [hp]
  refine ⟨?_, ?_⟩
  · intro hob
    have hob2 : Reactive.obstacleEncountered i.sensors := by
      unfold Reactive.obstacleEncountered; exact hob
    simp only [Reactive.step, Reactive.irobotNavigationStatechart, Reactive.stateTransition,
      Reactive.obstacleRegion, Reactive.obstacleOnLeft]
    simp only [hob2, hp2]
    simp
    split_ifs <;> rfl
  · intro hno
    have hno2 : ¬ Reactive.obstacleEncountered i.sensors := by
      unfold Reactive.obstacleEncountered; exact hno
    have hmet : abs32 (sub32 i.netAngle a) ≤ 2 →
        (Reactive.step ⟨.REORIENT, u, d, x, a⟩ i).1 = ⟨.DRIVE, u, d, x, a⟩ := by
      intro hle
      have hle2 : abs32 (sub32 i.netAngle a) ≤ Reactive.reorientTolerance := hle
      simp [Reactive.step, Reactive.irobotNavigationStatechart, Reactive.stateTransition,
        hno2, hp, hle2]
    have hnot : 2 < abs32 (sub32 i.netAngle a) →
        (Reactive.step ⟨.REORIENT, u, d, x, a⟩ i).1 = ⟨.REORIENT, u, d, x, a⟩ := by
      intro hgt
      have hgt2 : ¬ abs32 (sub32 i.netAngle a) ≤ Reactive.reorientTolerance :=
        not_le.mpr hgt
      simp [Reactive.step, Reactive.irobotNavigationStatechart, Reactive.stateTransition,
        hno2, hp, hgt2]
    refine ⟨?_, ?_, hmet, hnot⟩
    · intro hle
      simp only at hle
      have hb := abs_le.mp hle
      apply hmet
      rw [abs32_sub32_eq i.netAngle a (by omega) (by omega)]
      exact hle
    · intro hgt hlo hhi
      simp only at hgt hlo hhi
      apply hnot
      rw [abs32_sub32_eq i.netAngle a hlo hhi]
      exact hgt

/-- Witness of C23: REORIENT with snapshots (1000, 90).  A call at odometry
(1300, 40) with the right cliff asserted enters AVOID and overwrites both
snapshots; with no flag, net angle 92 returns to DRIVE and net angle 93 stays
in REORIENT unchanged. -/
theorem reorient_transitions_witness :
    (Reactive.step { Reactive.initialContext with
          state := .REORIENT, distanceAtManeuverStart := 1000, angleAtManeuverStart := 90 }
        (odometryInputs 1300 40 cliffRightSensors)).1
      = { state := .AVOID, unpausedState := .DRIVE, obstacleDirection := .RIGHT,
          distanceAtManeuverStart := 1300, angleAtManeuverStart := 40 }
    ∧ (Reactive.step { Reactive.initialContext with
          state := .REORIENT, distanceAtManeuverStart := 1000, angleAtManeuverStart := 90 }
        (odometryInputs 1300 92 zeroSensors)).1
      = { Reactive.initialContext with
          state := .DRIVE, distanceAtManeuverStart := 1000, angleAtManeuverStart := 90 }
    ∧ (Reactive.step { Reactive.initialContext with
          state := .REORIENT, distanceAtManeuverStart := 1000, angleAtManeuverStart := 90 }
        (odometryInputs 1300 93 zeroSensors)).1
      = { Reactive.initialContext with
          state := .REORIENT, distanceAtManeuverStart := 1000, angleAtManeuverStart := 90 } :=
  ⟨(reorient_transitions
      { Reactive.initialContext with
          state := .REORIENT, distanceAtManeuverStart := 1000, angleAtManeuverStart := 90 }
      (odometryInputs 1300 40 cliffRightSensors) rfl rfl).1 (by decide),
   ((reorient_transitions
      { Reactive.initialContext with
          state := .REORIENT, distanceAtManeuverStart := 1000, angleAtManeuverStart := 90 }
      (odometryInputs 1300 92 zeroSensors) rfl rfl).2 (by decide)).1 (by decide),
   ((reorient_transitions
      { Reactive.initialContext with
          state := .REORIENT, distanceAtManeuverStart := 1000, angleAtManeuverStart := 90 }
      (odometryInputs 1300 93 zeroSensors) rfl rfl).2 (by decide)).2.1 (by decide) (by decide)
      (by decide)⟩

/-! ## Long holds of the pause button -/

/-- Feeding two sequences one after the other to the reactive statechart. -/
theorem reactive_run_append (c : Reactive.NavigationContext) (l₁ l₂ : List Inputs) :
    Reactive.run c (l₁ ++ l₂) = Reactive.run (Reactive.run c l₁) l₂ := by
  simp [Reactive.run, List.foldl_append]

/-- The trace of two sequences fed one after the other to the reactive
statechart. -/
theorem reactive_trace_append (c : Reactive.NavigationContext) (l₁ l₂ : List Inputs) :
    Reactive.trace c (l₁ ++ l₂)
      = Reactive.trace c l₁ ++ Reactive.trace (Reactive.run c l₁) l₂ := by
  induction l₁ generalizing c with
  | nil => rfl
  | cons j rest ih =>
    have hrun : Reactive.run c (j :: rest) = Reactive.run (Reactive.step c j).1 rest := rfl
    show Reactive.step c j :: Reactive.trace (Reactive.step c j).1 (rest ++ l₂) = _
    rw [ih, hrun]
    rfl

/-- A phase of the pause protocol of the reactive statechart: when the first
call of a non-empty sequence takes `c` to `c'` with output `z` and every call
of the sequence leaves `c'` in place with output `z`, the sequence ends in `c'`
and every call of it returns `(c', z)`. -/
theorem reactive_phase (c c' : Reactive.NavigationContext) (z : WheelSpeeds)
    (good : Inputs → Prop) (l : List Inputs) (hne : l ≠ [])
    (hall : ∀ j ∈ l, good j)
    (henter : ∀ j, good j → Reactive.step c j = (c', z))
    (hstay : ∀ j, good j → Reactive.step c' j = (c', z)) :
    Reactive.run c l = c' ∧ ∀ r ∈ Reactive.trace c l, r = (c', z) := by
  have hold : ∀ t : List Inputs, (∀ j ∈ t, good j) →
      Reactive.run c' t = c' ∧ ∀ r ∈ Reactive.trace c' t, r = (c', z) := by
    intro t
    induction t with
    | nil => intro _; exact ⟨rfl, fun r hr => by simp [Reactive.trace] at hr⟩
    | cons j rest ih =>
      intro ht
      have hj := hstay j (ht j (List.mem_cons_self j rest))
      have hrest := ih (fun k hk => ht k (List.mem_cons_of_mem j hk))
      have hrun : Reactive.run c' (j :: rest) = Reactive.run (Reactive.step c' j).1 rest := rfl
      refine ⟨?_, ?_⟩
      · rw [hrun, hj]; exact hrest.1
      · intro r hr
        simp only [Reactive.trace, List.mem_cons, hj] at hr
        rcases hr with hr | hr
        · exact hr
        · exact hrest.2 r hr
  cases l with
  | nil => exact absurd rfl hne
  | cons j rest =>
    have hj := henter j (hall j (List.mem_cons_self j rest))
    have hrest := hold rest (fun k hk => hall k (List.mem_cons_of_mem j hk))
    have hrun : Reactive.run c (j :: rest) = Reactive.run (Reactive.step c j).1 rest := rfl
    refine ⟨?_, ?_⟩
    · rw [hrun, hj]; exact hrest.1
    · intro r hr
      simp only [Reactive.trace, List.mem_cons, hj] at hr
      rcases hr with hr | hr
      · exact hr
      · exact hrest.2 r hr

/-- Feeding two sequences one after the other to the scripted statechart. -/
theorem scripted_run_append (c : Scripted.NavigationContext) (l₁ l₂ : List Inputs) :
    Scripted.run c (l₁ ++ l₂) = Scripted.run (Scripted.run c l₁) l₂ := by
  simp [Scripted.run, List.foldl_append]

/-- The trace of two sequences fed one after the other to the scripted
statechart. -/
theorem scripted_trace_append (c : Scripted.NavigationContext) (l₁ l₂ : List Inputs) :
    Scripted.trace c (l₁ ++ l₂)
      = Scripted.trace c l₁ ++ Scripted.trace (Scripted.run c l₁) l₂ := by
  induction l₁ generalizing c with
  | nil => rfl
  | cons j rest ih =>
    have hrun : Scripted.run c (j :: rest) = Scripted.run (Scripted.step c j).1 rest := rfl
    show Scripted.step c j :: Scripted.trace (Scripted.step c j).1 (rest ++ l₂) = _
    rw [ih, hrun]
    rfl

/-- A phase of the pause protocol of the scripted statechart: when the first
call of a non-empty sequence takes `c` to `c'` with output `z` and every call
of the sequence leaves `c'` in place with output `z`, the sequence ends in `c'`
and every call of it returns `(c', z)`. -/
theorem scripted_phase (c c' : Scripted.NavigationContext) (z : WheelSpeeds)
    (good : Inputs → Prop) (l : List Inputs) (hne : l ≠ [])
    (hall : ∀ j ∈ l, good j)
    (henter : ∀ j, good j → Scripted.step c j = (c', z))
    (hstay : ∀ j, good j → Scripted.step c' j = (c', z)) :
    Scripted.run c l = c' ∧ ∀ r ∈ Scripted.trace c l, r = (c', z) := by
  have hold : ∀ t : List Inputs, (∀ j ∈ t, good j) →
      Scripted.run c' t = c' ∧ ∀ r ∈ Scripted.trace c' t, r = (c', z) := by
    intro t
    induction t with
    | nil => intro _; exact ⟨rfl, fun r hr => by simp [Scripted.trace] at hr⟩
    | cons j rest ih =>
      intro ht
      have hj := hstay j (ht j (List.mem_cons_self j rest))
      have hrest := ih (fun k hk => ht k (List.mem_cons_of_mem j hk))
      have hrun : Scripted.run c' (j :: rest) = Scripted.run (Scripted.step c' j).1 rest := rfl
      refine ⟨?_, ?_⟩
      · rw [hrun, hj]; exact hrest.1
      · intro r hr
        simp only [Scripted.trace, List.mem_cons, hj] at hr
        rcases hr with hr | hr
        · exact hr
        · exact hrest.2 r hr
  cases l with
  | nil => exact absurd rfl hne
  | cons j rest =>
    have hj := henter j (hall j (List.mem_cons_self j rest))
    have hrest := hold rest (fun k hk => hall k (List.mem_cons_of_mem j hk))
    have hrun : Scripted.run c (j :: rest) = Scripted.run (Scripted.step c j).1 rest := rfl
    refine ⟨?_, ?_⟩
    · rw [hrun, hj]; exact hrest.1
    · intro r hr
      simp only [Scripted.trace, List.mem_cons, hj] at hr
      rcases hr with hr | hr
      · exact hr
      · exact hrest.2 r hr

/-- C22: full pause cycle with long holds, in both statecharts.  From a
run-region state `s`, feed a non-empty sequence of calls with the button
pressed, then a non-empty sequence with it released, then a non-empty sequence
with it pressed, then one call with it released, every other input value being
arbitrary at every call.  The machine ends in state `s` with
`unpausedState = s` and both snapshots (and `obstacleDirection`) as at the
start; every call except the last outputs (0, 0) and leaves the machine in a
pause-region state, never in a run state. -/
theorem long_hold_pause_cycle :
    (∀ (c : Reactive.NavigationContext) (l₁ l₂ l₃ : List Inputs) (i : Inputs),
        Reactive.isRunState c.state →
        l₁ ≠ [] → l₂ ≠ [] → l₃ ≠ [] →
        (∀ j ∈ l₁, j.sensors.buttons.play = true) →
        (∀ j ∈ l₂, j.sensors.buttons.play = false) →
        (∀ j ∈ l₃, j.sensors.buttons.play = true) →
        i.sensors.buttons.play = false →
          Reactive.run c (l₁ ++ l₂ ++ l₃ ++ [i]) = { c with unpausedState := c.state }
          ∧ (∀ r ∈ Reactive.trace c (l₁ ++ l₂ ++ l₃),
              r.2 = { leftWheelSpeed := 0, rightWheelSpeed := 0 }
              ∧ Reactive.isPauseState r.1.state ∧ ¬ Reactive.isRunState r.1.state))
    ∧ (∀ (c : Scripted.NavigationContext) (l₁ l₂ l₃ : List Inputs) (i : Inputs),
        Scripted.isRunState c.state →
        l₁ ≠ [] → l₂ ≠ [] → l₃ ≠ [] →
        (∀ j ∈ l₁, j.sensors.buttons.play = true) →
        (∀ j ∈ l₂, j.sensors.buttons.play = false) →
        (∀ j ∈ l₃, j.sensors.buttons.play = true) →
        i.sensors.buttons.play = false →
          Scripted.run c (l₁ ++ l₂ ++ l₃ ++ [i]) = { c with unpausedState := c.state }
          ∧ (∀ r ∈ Scripted.trace c (l₁ ++ l₂ ++ l₃),
              r.2 = { leftWheelSpeed := 0, rightWheelSpeed := 0 }
              ∧ Scripted.isPauseState r.1.state ∧ ¬ Scripted.isRunState r.1.state)) := by
  constructor
  · intro c l₁ l₂ l₃ i hrun h₁ h₂ h₃ hp₁ hp₂ hp₃ hi
    obtain ⟨s, u, d, x, a⟩ := c
    simp only at hrun
    have hs1 : ∀ j : Inputs, j.sensors.buttons.play = true →
        Reactive.step ⟨s, u, d, x, a⟩ j
          = (⟨.PAUSE_WAIT_BUTTON_RELEASE, s, d, x, a⟩, ⟨0, 0⟩) := by
      intro j hj
      simp only [Reactive.isRunState] at hrun
      rcases hrun with hs | hs | hs <;> subst hs <;>
        simp [Reactive.step, Reactive.irobotNavigationStatechart, Reactive.stateTransition,
          Reactive.pauseRegion, Reactive.stateActions, hj]
    have hs2 : ∀ j : Inputs, j.sensors.buttons.play = true →
        Reactive.step ⟨.PAUSE_WAIT_BUTTON_RELEASE, s, d, x, a⟩ j
          = (⟨.PAUSE_WAIT_BUTTON_RELEASE, s, d, x, a⟩, ⟨0, 0⟩) := by
      intro j hj
      simp [Reactive.step, Reactive.irobotNavigationStatechart, Reactive.stateTransition,
        Reactive.pauseRegion, Reactive.stateActions, hj]
    have hs3 : ∀ j : Inputs, j.sensors.buttons.play = false →
        Reactive.step ⟨.PAUSE_WAIT_BUTTON_RELEASE, s, d, x, a⟩ j
          = (⟨.UNPAUSE_WAIT_BUTTON_PRESS, s, d, x, a⟩, ⟨0, 0⟩) := by
      intro j hj
      simp [Reactive.step, Reactive.irobotNavigationStatechart, Reactive.stateTransition,
        Reactive.pauseRegion, Reactive.stateActions, hj]
    have hs4 : ∀ j : Inputs, j.sensors.buttons.play = false →
        Reactive.step ⟨.UNPAUSE_WAIT_BUTTON_PRESS, s, d, x, a⟩ j
          = (⟨.UNPAUSE_WAIT_BUTTON_PRESS, s, d, x, a⟩, ⟨0, 0⟩) := by
      intro j hj
      simp [Reactive.step, Reactive.irobotNavigationStatechart, Reactive.stateTransition,
        Reactive.pauseRegion, Reactive.stateActions, hj]
    have hs5 : ∀ j : Inputs, j.sensors.buttons.play = true →
        Reactive.step ⟨.UNPAUSE_WAIT_BUTTON_PRESS, s, d, x, a⟩ j
          = (⟨.UNPAUSE_WAIT_BUTTON_RELEASE, s, d, x, a⟩, ⟨0, 0⟩) := by
      intro j hj
      simp [Reactive.step, Reactive.irobotNavigationStatechart, Reactive.stateTransition,
        Reactive.pauseRegion, Reactive.stateActions, hj]
    have hs6 : ∀ j : Inputs, j.sensors.buttons.play = true →
        Reactive.step ⟨.UNPAUSE_WAIT_BUTTON_RELEASE, s, d, x, a⟩ j
          = (⟨.UNPAUSE_WAIT_BUTTON_RELEASE, s, d, x, a⟩, ⟨0, 0⟩) := by
      intro j hj
      simp [Reactive.step, Reactive.irobotNavigationStatechart, Reactive.stateTransition,
        Reactive.pauseRegion, Reactive.stateActions, hj]
    have hs7 : (Reactive.step ⟨.UNPAUSE_WAIT_BUTTON_RELEASE, s, d, x, a⟩ i).1 = ⟨s, s, d, x, a⟩ := by
      simp [Reactive.step, Reactive.irobotNavigationStatechart, Reactive.stateTransition,
        Reactive.pauseRegion, hi]
    have ph1 := reactive_phase _ _ _ (fun j => j.sensors.buttons.play = true) l₁ h₁ hp₁
      hs1 hs2
    have ph2 := reactive_phase _ _ _ (fun j => j.sensors.buttons.play = false) l₂ h₂ hp₂
      hs3 hs4
    have ph3 := reactive_phase _ _ _ (fun j => j.sensors.buttons.play = true) l₃ h₃ hp₃
      hs5 hs6
    refine ⟨?_, ?_⟩
    · rw [reactive_run_append, reactive_run_append, reactive_run_append, ph1.1, ph2.1,
        ph3.1]
      exact hs7
    · intro r hr
      rw [reactive_trace_append, reactive_trace_append, reactive_run_append, ph1.1,
        ph2.1] at hr
      simp only [List.mem_append] at hr
      rcases hr with (hr | hr) | hr
      · rw [ph1.2 r hr]
        exact ⟨rfl, by simp [Reactive.isPauseState], by simp [Reactive.isRunState]⟩
      · rw [ph2.2 r hr]
        exact ⟨rfl, by simp [Reactive.isPauseState], by simp [Reactive.isRunState]⟩
      · rw [ph3.2 r hr]
        exact ⟨rfl, by simp [Reactive.isPauseState], by simp [Reactive.isRunState]⟩
  · intro c l₁ l₂ l₃ i hrun h₁ h₂ h₃ hp₁ hp₂ hp₃ hi
    obtain ⟨s, u, x, a⟩ := c
    simp only at hrun
    have hs1 : ∀ j : Inputs, j.sensors.buttons.play = true →
        Scripted.step ⟨s, u, x, a⟩ j
          = (⟨.PAUSE_WAIT_BUTTON_RELEASE, s, x, a⟩, ⟨0, 0⟩) := by
      intro j hj
      simp only [Scripted.isRunState] at hrun
      rcases hrun with hs | hs | hs | hs | hs | hs | hs | hs <;> subst hs <;>
        simp [Scripted.step, Scripted.irobotNavigationStatechart, Scripted.stateTransition,
          Scripted.pauseRegion, Scripted.stateActions, hj]
    have hs2 : ∀ j : Inputs, j.sensors.buttons.play = true →
        Scripted.step ⟨.PAUSE_WAIT_BUTTON_RELEASE, s, x, a⟩ j
          = (⟨.PAUSE_WAIT_BUTTON_RELEASE, s, x, a⟩, ⟨0, 0⟩) := by
      intro j hj
      simp [Scripted.step, Scripted.irobotNavigationStatechart, Scripted.stateTransition,
        Scripted.pauseRegion, Scripted.stateActions, hj]
    have hs3 : ∀ j : Inputs, j.sensors.buttons.play = false →
        Scripted.step ⟨.PAUSE_WAIT_BUTTON_RELEASE, s, x, a⟩ j
          = (⟨.UNPAUSE_WAIT_BUTTON_PRESS, s, x, a⟩, ⟨0, 0⟩) := by
      intro j hj
      simp [Scripted.step, Scripted.irobotNavigationStatechart, Scripted.stateTransition,
        Scripted.pauseRegion, Scripted.stateActions, hj]
    have hs4 : ∀ j : Inputs, j.sensors.buttons.play = false →
        Scripted.step ⟨.UNPAUSE_WAIT_BUTTON_PRESS, s, x, a⟩ j
          = (⟨.UNPAUSE_WAIT_BUTTON_PRESS, s, x, a⟩, ⟨0, 0⟩) := by
      intro j hj
      simp [Scripted.step, Scripted.irobotNavigationStatechart, Scripted.stateTransition,
        Scripted.pauseRegion, Scripted.stateActions, hj]
    have hs5 : ∀ j : Inputs, j.sensors.buttons.play = true →
        Scripted.step ⟨.UNPAUSE_WAIT_BUTTON_PRESS, s, x, a⟩ j
          = (⟨.UNPAUSE_WAIT_BUTTON_RELEASE, s, x, a⟩, ⟨0, 0⟩) := by
      intro j hj
      simp [Scripted.step, Scripted.irobotNavigationStatechart, Scripted.stateTransition,
        Scripted.pauseRegion, Scripted.stateActions, hj]
    have hs6 : ∀ j : Inputs, j.sensors.buttons.play = true →
        Scripted.step ⟨.UNPAUSE_WAIT_BUTTON_RELEASE, s, x, a⟩ j
          = (⟨.UNPAUSE_WAIT_BUTTON_RELEASE, s, x, a⟩, ⟨0, 0⟩) := by
      intro j hj
      simp [Scripted.step, Scripted.irobotNavigationStatechart, Scripted.stateTransition,
        Scripted.pauseRegion, Scripted.stateActions, hj]
    have hs7 : (Scripted.step ⟨.UNPAUSE_WAIT_BUTTON_RELEASE, s, x, a⟩ i).1 = ⟨s, s, x, a⟩ := by
      simp [Scripted.step, Scripted.irobotNavigationStatechart, Scripted.stateTransition,
        Scripted.pauseRegion, hi]
    have ph1 := scripted_phase _ _ _ (fun j => j.sensors.buttons.play = true) l₁ h₁ hp₁
      hs1 hs2
    have ph2 := scripted_phase _ _ _ (fun j => j.sensors.buttons.play = false) l₂ h₂ hp₂
      hs3 hs4
    have ph3 := scripted_phase _ _ _ (fun j => j.sensors.buttons.play = true) l₃ h₃ hp₃
      hs5 hs6
    refine ⟨?_, ?_⟩
    · rw [scripted_run_append, scripted_run_append, scripted_run_append, ph1.1, ph2.1,
        ph3.1]
      exact hs7
    · intro r hr
      rw [scripted_trace_append, scripted_trace_append, scripted_run_append, ph1.1,
        ph2.1] at hr
      simp only [List.mem_append] at hr
      rcases hr with (hr | hr) | hr
      · rw [ph1.2 r hr]
        exact ⟨rfl, by simp [Scripted.isPauseState], by simp [Scripted.isRunState]⟩
      · rw [ph2.2 r hr]
        exact ⟨rfl, by simp [Scripted.isPauseState], by simp [Scripted.isRunState]⟩
      · rw [ph3.2 r hr]
        exact ⟨rfl, by simp [Scripted.isPauseState], by simp [Scripted.isRunState]⟩

/-- Witness of C22: REORIENT (reactive) and TURN_LEFT (scripted) with saved
state DRIVE and snapshots (1200, -45); two calls pressed, two released, three
pressed and one released, half of them with every other flag asserted, end in
the state they started from with the snapshots unchanged. -/
theorem long_hold_pause_cycle_witness :
    Reactive.run
        { state := .REORIENT, unpausedState := .DRIVE, obstacleDirection := .RIGHT,
          distanceAtManeuverStart := 1200, angleAtManeuverStart := -45 }
        ([allFlagsInputs true, pressInputs] ++ [releaseInputs, allFlagsInputs false]
          ++ [pressInputs, allFlagsInputs true, pressInputs] ++ [allFlagsInputs false])
      = { state := .REORIENT, unpausedState := .REORIENT, obstacleDirection := .RIGHT,
          distanceAtManeuverStart := 1200, angleAtManeuverStart := -45 }
    ∧ Scripted.run
        { state := .TURN_LEFT, unpausedState := .DRIVE,
          distanceAtManeuverStart := 1200, angleAtManeuverStart := -45 }
        ([allFlagsInputs true, pressInputs] ++ [releaseInputs, allFlagsInputs false]
          ++ [pressInputs, allFlagsInputs true, pressInputs] ++ [allFlagsInputs false])
      = { state := .TURN_LEFT, unpausedState := .TURN_LEFT,
          distanceAtManeuverStart := 1200, angleAtManeuverStart := -45 } :=
  ⟨(long_hold_pause_cycle.1
      { state := .REORIENT, unpausedState := .DRIVE, obstacleDirection := .RIGHT,
        distanceAtManeuverStart := 1200, angleAtManeuverStart := -45 }
      [allFlagsInputs true, pressInputs] [releaseInputs, allFlagsInputs false]
      [pressInputs, allFlagsInputs true, pressInputs] (allFlagsInputs false)
      (by decide) (List.cons_ne_nil _ _) (List.cons_ne_nil _ _) (List.cons_ne_nil _ _)
      (by decide) (by decide) (by decide) rfl).1,
   (long_hold_pause_cycle.2
      { state := .TURN_LEFT, unpausedState := .DRIVE,
        distanceAtManeuverStart := 1200, angleAtManeuverStart := -45 }
      [allFlagsInputs true, pressInputs] [releaseInputs, allFlagsInputs false]
      [pressInputs, allFlagsInputs true, pressInputs] (allFlagsInputs false)
      (by decide) (List.cons_ne_nil _ _) (List.cons_ne_nil _ _) (List.cons_ne_nil _ _)
      (by decide) (by decide) (by decide) rfl).1⟩
